import Mathlib

/-!
Verification of the FundedNext EURUSD trading bot core
(`src/core/compliance.py`, `src/core/risk.py`, `src/broker/mt5_gateway.py`,
`src/core/strategy.py`, `src/main.py`) against its natural-language
specification.

Conventions of the shallow embedding:
* Python floats become `ℚ`; `round(x, n)` (banker's rounding, half to even)
  becomes `pyRound`, `int(x)` (truncation toward zero) becomes `pyTrunc`.
* Calendar dates become integer day indices; `datetime.now(timezone.utc)`
  becomes an explicit `wallDay`/`now` parameter of any function whose Python
  source reads the wall clock.
* Mutable objects (`ComplianceEngine`, `DryRunGateway`, `Position`) become
  records passed and returned explicitly.
-/

namespace Forex

/-- Python `round` at 0 digits: round half to even, on exact rationals. -/
def rndHalfEven (x : ℚ) : ℤ :=
  if x - ⌊x⌋ < 1/2 then ⌊x⌋
  else if 1/2 < x - ⌊x⌋ then ⌊x⌋ + 1
  else if ⌊x⌋ % 2 = 0 then ⌊x⌋ else ⌊x⌋ + 1

/-- Python `round(x, n)` on exact rationals. -/
def pyRound (x : ℚ) (n : ℕ) : ℚ :=
  (rndHalfEven (x * 10 ^ n) : ℚ) / 10 ^ n

/-- Python `int(x)`: truncation toward zero. -/
def pyTrunc (x : ℚ) : ℤ :=
  if 0 ≤ x then ⌊x⌋ else ⌈x⌉

-- ===================================================================
-- core/compliance.py
-- ===================================================================

/-- `RiskState` enumeration from `core/compliance.py`. -/
inductive RiskState
  | NORMAL
  | REDUCED
  | DAILY_PAUSE
  | WEEKLY_PAUSE
  | KILL_SWITCH
  deriving DecidableEq

/-- The configuration `ComplianceEngine.__init__` reads from `cfg`. -/
structure CCfg where
  initial_balance : ℚ
  max_daily_loss_pct : ℚ
  max_total_dd_pct : ℚ
  trailing_dd_enabled : Bool
  trailing_dd_pct : ℚ
  max_consec_losses : ℕ
  max_trades_per_day : ℕ
  reduce_risk_after : ℕ
  risk_pct_normal : ℚ
  risk_pct_reduced : ℚ
  max_spread : ℚ
  dd_tier1_pct : ℚ
  dd_tier2_pct : ℚ
  dd_tier2_factor : ℚ
  deriving DecidableEq

/-- The mutable state of `ComplianceEngine`. -/
structure CState where
  state : RiskState
  consec_losses : ℕ
  trades_today : ℕ
  today_closed_pnl : ℚ
  prev_eod_balance : ℚ
  high_water_mark : ℚ
  last_equity : ℚ
  current_day : ℤ
  deriving DecidableEq

/-- Initial engine state (`ComplianceEngine.__init__`); `day0` stands for the
`datetime.now(timezone.utc).date()` read at construction time. -/
def initCState (cc : CCfg) (day0 : ℤ) : CState :=
  { state := RiskState.NORMAL
    consec_losses := 0
    trades_today := 0
    today_closed_pnl := 0
    prev_eod_balance := cc.initial_balance
    high_water_mark := cc.initial_balance
    last_equity := cc.initial_balance
    current_day := day0 }

/-- `ComplianceEngine.advance_time`: bar-time-driven calendar rollover. -/
def advanceTime (barDay : ℤ) (balance : ℚ) (c : CState) : CState :=
  if barDay ≠ c.current_day then
    { c with
      prev_eod_balance := balance
      today_closed_pnl := 0
      trades_today := 0
      consec_losses := 0
      current_day := barDay
      state := if c.state = RiskState.KILL_SWITCH then c.state else RiskState.NORMAL }
  else c

/-- `ComplianceEngine._check_new_day_realtime`: wall-clock-driven rollover.
`wallDay` stands for the `datetime.now(timezone.utc).date()` the source reads. -/
def checkNewDayRealtime (wallDay : ℤ) (balance : ℚ) (c : CState) : CState :=
  if wallDay ≠ c.current_day then
    { c with
      prev_eod_balance := balance
      today_closed_pnl := 0
      trades_today := 0
      consec_losses := 0
      current_day := wallDay
      state := if c.state = RiskState.KILL_SWITCH then c.state else RiskState.NORMAL }
  else c

/-- `ComplianceEngine.get_total_dd_pct`. -/
def getTotalDdPct (cc : CCfg) (equity : ℚ) : ℚ :=
  if cc.initial_balance ≤ 0 then 0
  else max 0 ((cc.initial_balance - equity) / cc.initial_balance * 100)

/-- `ComplianceEngine.get_daily_pnl`. -/
def getDailyPnl (c : CState) (equity balance : ℚ) : ℚ :=
  c.today_closed_pnl + (equity - balance)

/-- `ComplianceEngine._update_state`: recomputes `state` from the cascade of
conditions, after storing `equity` and refreshing the high-water mark. -/
def updateState (cc : CCfg) (balance equity : ℚ) (c : CState) : CState :=
  let c1 := { c with last_equity := equity }
  let c2 := if c1.high_water_mark < balance then { c1 with high_water_mark := balance } else c1
  if cc.max_total_dd_pct ≤ getTotalDdPct cc equity then
    { c2 with state := RiskState.KILL_SWITCH }
  else if cc.trailing_dd_enabled ∧ 0 < c2.high_water_mark ∧
      cc.trailing_dd_pct ≤ (c2.high_water_mark - equity) / c2.high_water_mark * 100 then
    { c2 with state := RiskState.WEEKLY_PAUSE }
  else if getDailyPnl c2 equity balance < -(c2.prev_eod_balance * cc.max_daily_loss_pct / 100) then
    { c2 with state := RiskState.DAILY_PAUSE }
  else if cc.max_trades_per_day ≤ c2.trades_today then
    { c2 with state := RiskState.DAILY_PAUSE }
  else if cc.max_consec_losses ≤ c2.consec_losses then
    { c2 with state := RiskState.DAILY_PAUSE }
  else if cc.reduce_risk_after ≤ c2.consec_losses then
    { c2 with state := RiskState.REDUCED }
  else
    { c2 with state := RiskState.NORMAL }

/-- The block reasons `rule_check` can return (the source returns reason
strings; `none` stands for the `""` = allowed result). -/
inductive Block
  | killSwitch
  | dailyPause
  | maxTradesDay
  | spreadHigh
  deriving DecidableEq

/-- `ComplianceEngine.rule_check`. The source unconditionally calls
`_check_new_day_realtime`, which reads the wall clock; that read is the
explicit `wallDay` argument here. -/
def ruleCheck (cc : CCfg) (wallDay : ℤ) (balance equity spread_pips : ℚ)
    (c : CState) : CState × Option Block :=
  let c1 := checkNewDayRealtime wallDay balance c
  let c2 := updateState cc balance equity c1
  if c2.state = RiskState.KILL_SWITCH then (c2, some Block.killSwitch)
  else if c2.state = RiskState.DAILY_PAUSE then (c2, some Block.dailyPause)
  else if cc.max_trades_per_day ≤ c2.trades_today then (c2, some Block.maxTradesDay)
  else if cc.max_spread < spread_pips then (c2, some Block.spreadHigh)
  else (c2, none)

/-- `ComplianceEngine.on_trade_opened`. -/
def onTradeOpened (c : CState) : CState :=
  { c with trades_today := c.trades_today + 1 }

/-- `ComplianceEngine.on_trade_closed`. -/
def onTradeClosed (pnl balance : ℚ) (c : CState) : CState :=
  let c1 := { c with today_closed_pnl := c.today_closed_pnl + pnl }
  let c2 :=
    if pnl < 0 then { c1 with consec_losses := c1.consec_losses + 1 }
    else if 0 < pnl then { c1 with consec_losses := 0 }
    else c1
  if c2.high_water_mark < balance then { c2 with high_water_mark := balance } else c2

/-- `ComplianceEngine.get_risk_percent`. -/
def getRiskPercent (cc : CCfg) (c : CState) : ℚ :=
  if c.state = RiskState.KILL_SWITCH then 0
  else if c.state = RiskState.WEEKLY_PAUSE then 1/4
  else
    let risk := if c.state = RiskState.REDUCED then cc.risk_pct_reduced else cc.risk_pct_normal
    if 0 < c.last_equity ∧ 0 < c.high_water_mark then
      let dd_pct := (c.high_water_mark - c.last_equity) / c.high_water_mark * 100
      if cc.dd_tier2_pct ≤ dd_pct then min risk (cc.risk_pct_reduced * cc.dd_tier2_factor)
      else if cc.dd_tier1_pct ≤ dd_pct then min risk cc.risk_pct_reduced
      else risk
    else risk

/-- Modelled from the spec (§4.2): the state-table risk percentage, one of the
two mechanisms whose minimum §4.2 requires `get_risk_percent` to return. -/
def specStateRisk (cc : CCfg) (c : CState) : ℚ :=
  match c.state with
  | RiskState.KILL_SWITCH => 0
  | RiskState.WEEKLY_PAUSE => 1/4
  | RiskState.REDUCED => cc.risk_pct_reduced
  | _ => cc.risk_pct_normal

/-- Modelled from the spec (§4.2): the drawdown-from-peak tier cap, the second
mechanism. `none` = no cap applies (below tier 1, or the peak data is not
positive). -/
def specDdCap (cc : CCfg) (c : CState) : Option ℚ :=
  if 0 < c.last_equity ∧ 0 < c.high_water_mark then
    let dd_pct := (c.high_water_mark - c.last_equity) / c.high_water_mark * 100
    if cc.dd_tier2_pct ≤ dd_pct then some (cc.risk_pct_reduced * cc.dd_tier2_factor)
    else if cc.dd_tier1_pct ≤ dd_pct then some cc.risk_pct_reduced
    else none
  else none

/-- Modelled from the spec (§4.2): the more conservative of the two
mechanisms — the risk percentage the claim says `get_risk_percent` returns. -/
def specMinRisk (cc : CCfg) (c : CState) : ℚ :=
  match specDdCap cc c with
  | some cap => min (specStateRisk cc c) cap
  | none => specStateRisk cc c

-- ===================================================================
-- core/risk.py
-- ===================================================================

/-- `core/risk.py calculate_lot_size`. The source's parameter defaults are
`pip_value_per_lot=10.0, min_lot=0.01, max_lot=100.0, lot_step=0.01`. -/
def calculate_lot_size (balance risk_pct sl_pips pip_value_per_lot
    min_lot max_lot lot_step : ℚ) : ℚ :=
  if sl_pips ≤ 0 ∨ balance ≤ 0 ∨ risk_pct ≤ 0 then 0
  else
    let risk_dollars := balance * risk_pct / 100
    let lots := risk_dollars / (sl_pips * pip_value_per_lot)
    let lots1 := if 0 < lot_step then (pyTrunc (lots / lot_step) : ℚ) * lot_step else lots
    let lots2 := max min_lot (min max_lot lots1)
    pyRound lots2 2

/-- `core/risk.py validate_sl_tp`. -/
def validate_sl_tp (entry sl tp : ℚ) (direction : ℤ) : Bool :=
  if 0 < direction then decide (sl < entry ∧ entry < tp)
  else if direction < 0 then decide (tp < entry ∧ entry < sl)
  else false

/-- Modelled from the spec (§8 Sizing): risk-dollars = balance × risk_pct/100;
lots = that divided by (stop_pips × per-unit value), floored to the lot step,
clamped to [min_lot, max_lot]; zero on degenerate inputs. Reference function
for the refinement comparison with `calculate_lot_size`. -/
def specLotSize (balance risk_pct sl_pips pip_value_per_lot
    min_lot max_lot lot_step : ℚ) : ℚ :=
  if balance ≤ 0 ∨ risk_pct ≤ 0 ∨ sl_pips ≤ 0 then 0
  else
    let raw := (balance * risk_pct / 100) / (sl_pips * pip_value_per_lot)
    max min_lot (min max_lot ((⌊raw / lot_step⌋ : ℚ) * lot_step))

-- ===================================================================
-- broker/mt5_gateway.py (DryRunGateway) and core/indicators.py helpers
-- ===================================================================

/-- `core/indicators.py pip_size()` for EURUSD (non-JPY): `0.0001`. -/
def pipSizeQ : ℚ := 1/10000

/-- `core/indicators.py price_to_pips` for EURUSD. -/
def priceToPips (priceDistance : ℚ) : ℚ := |priceDistance| / pipSizeQ

/-- `broker/mt5_gateway.py Position`. -/
structure Position where
  ticket : ℕ
  direction : ℤ
  entry : ℚ
  sl : ℚ
  tp : ℚ
  lots : ℚ
  strategy : String
  open_time : ℤ
  sl_pips : ℚ
  be_activated : Bool
  partial_closed : Bool
  deriving DecidableEq

/-- Exit reasons recorded in `trade_history` (the source stores strings). -/
inductive ExitReason
  | slHit
  | tpHit
  | beHit
  | trailHit
  | partialOneR
  | manual (tag : String)
  deriving DecidableEq

/-- One `trade_history` row (`_record_close` / `_record_partial_close`).
`close_time` is the `datetime.now(timezone.utc)` stamp the source writes. -/
structure TradeRow where
  ticket : ℕ
  direction : ℤ
  entry : ℚ
  exitPrice : ℚ
  sl : ℚ
  tp : ℚ
  lots : ℚ
  pnl : ℚ
  reason : ExitReason
  open_time : ℤ
  close_time : ℤ
  deriving DecidableEq

/-- The `trade_management` configuration section read by `check_sl_tp` and
`manage_open_positions`. -/
structure TMCfg where
  breakeven_enabled : Bool
  breakeven_r : ℚ
  trailing_enabled : Bool
  trailing_start_r : ℚ
  trailing_atr_mult : ℚ
  partial_close_enabled : Bool
  partial_close_r : ℚ
  partial_close_pct : ℚ
  deriving DecidableEq

/-- The mutable state of `DryRunGateway`. -/
structure Gateway where
  balance : ℚ
  positions : List Position
  next_ticket : ℕ
  trade_history : List TradeRow
  last_ask : ℚ
  last_bid : ℚ
  spread_pips : ℚ
  slippage_pips : ℚ
  pip_value_per_lot : ℚ
  deriving DecidableEq

/-- `DryRunGateway.update_price` (`ask = 0` selects the bid + spread path,
as in the backtest loop's `gateway.update_price(bar["close"])`). -/
def updatePrice (gw : Gateway) (bid ask : ℚ) : Gateway :=
  { gw with
    last_bid := bid
    last_ask := if 0 < ask then ask else bid + gw.spread_pips * pipSizeQ }

/-- `DryRunGateway._calc_pnl` / `_calc_pnl_at` (the latter for an explicit
lot amount). -/
def calcPnlOf (pip_value_per_lot : ℚ) (pos : Position) (exitPrice lots : ℚ) : ℚ :=
  let pips := if 0 < pos.direction then (exitPrice - pos.entry) / pipSizeQ
              else (pos.entry - exitPrice) / pipSizeQ
  pips * pip_value_per_lot * lots

/-- `DryRunGateway._update_equity`: balance plus floating P&L of the open
positions against the opposite-side quote. -/
def gatewayEquity (gw : Gateway) : ℚ :=
  gw.balance + gw.positions.foldl
    (fun acc pos =>
      acc + (if 0 < pos.direction then (gw.last_bid - pos.entry) / pipSizeQ
             else (pos.entry - gw.last_ask) / pipSizeQ) * gw.pip_value_per_lot * pos.lots)
    0

/-- `AccountInfo` as returned by `DryRunGateway.get_account_info` (balance and
equity rounded to 2 decimals). -/
structure AccountInfo where
  balance : ℚ
  equity : ℚ
  margin_free : ℚ
  deriving DecidableEq

/-- `DryRunGateway.get_account_info`. -/
def getAccountInfo (gw : Gateway) : AccountInfo :=
  { balance := pyRound gw.balance 2
    equity := pyRound (gatewayEquity gw) 2
    margin_free := pyRound (gatewayEquity gw) 2 }

/-- `DryRunGateway._record_close` as a row value; `now` is the wall-clock
stamp `datetime.now(timezone.utc)` the source writes into `close_time`. -/
def recordClose (pos : Position) (exitPrice pnl : ℚ) (reason : ExitReason)
    (now : ℤ) : TradeRow :=
  { ticket := pos.ticket
    direction := pos.direction
    entry := pos.entry
    exitPrice := exitPrice
    sl := pos.sl
    tp := pos.tp
    lots := pos.lots
    pnl := pyRound pnl 2
    reason := reason
    open_time := pos.open_time
    close_time := now }

/-- `DryRunGateway._record_partial_close` (explicit lot amount). -/
def recordPartialClose (pos : Position) (exitPrice pnl lots : ℚ)
    (reason : ExitReason) (now : ℤ) : TradeRow :=
  { ticket := pos.ticket
    direction := pos.direction
    entry := pos.entry
    exitPrice := exitPrice
    sl := pos.sl
    tp := pos.tp
    lots := lots
    pnl := pyRound pnl 2
    reason := reason
    open_time := pos.open_time
    close_time := now }

/-- A bar as passed to `check_sl_tp` (dict with high/low/open/close/atr). -/
structure BarOHLC where
  high : ℚ
  low : ℚ
  openPrice : ℚ
  closePrice : ℚ
  atr : ℚ
  deriving DecidableEq

/-- The partial-close block of `DryRunGateway.check_sl_tp` for one position:
returns the updated position, the recorded row if the partial fired, and the
balance increment. -/
def stepPartialClose (tm : TMCfg) (bar : BarOHLC) (pip_value_per_lot : ℚ)
    (now : ℤ) (pos : Position) : Position × Option TradeRow × ℚ :=
  if ¬pos.partial_closed ∧ 0 < pos.sl_pips ∧ tm.partial_close_enabled then
    let pc_pct := tm.partial_close_pct / 100
    let pc_dist := pos.sl_pips * pipSizeQ * tm.partial_close_r
    let pc_target := if 0 < pos.direction then pos.entry + pc_dist else pos.entry - pc_dist
    let pc_hit : Bool := if 0 < pos.direction then decide (pc_target ≤ bar.high)
                         else decide (bar.low ≤ pc_target)
    if pc_hit then
      let close_lots := pyRound (pos.lots * pc_pct) 2
      let remain_lots := pyRound (pos.lots - close_lots) 2
      if 0 < close_lots ∧ 0 < remain_lots then
        let pc_pnl := calcPnlOf pip_value_per_lot pos pc_target close_lots
        let row := recordPartialClose pos pc_target pc_pnl close_lots ExitReason.partialOneR now
        let newSl := if 0 < pos.direction then pyRound (pos.entry + pipSizeQ) 5
                     else pyRound (pos.entry - pipSizeQ) 5
        ({ pos with lots := remain_lots, partial_closed := true, sl := newSl,
                    be_activated := true },
         some row, pc_pnl)
      else (pos, none, 0)
    else (pos, none, 0)
  else (pos, none, 0)

/-- The breakeven block of `DryRunGateway.check_sl_tp` for one position. -/
def stepBreakeven (tm : TMCfg) (bar : BarOHLC) (pos : Position) : Position :=
  if ¬pos.be_activated ∧ tm.breakeven_enabled ∧ 0 < pos.sl_pips then
    let be_dist := pos.sl_pips * pipSizeQ * tm.breakeven_r
    if 0 < pos.direction then
      if pos.entry + be_dist ≤ bar.high then
        let new_sl := pos.entry + pipSizeQ
        if pos.sl < new_sl then { pos with sl := pyRound new_sl 5, be_activated := true }
        else pos
      else pos
    else
      if bar.low ≤ pos.entry - be_dist then
        let new_sl := pos.entry - pipSizeQ
        if new_sl < pos.sl then { pos with sl := pyRound new_sl 5, be_activated := true }
        else pos
      else pos
  else pos

/-- The trailing-stop block of `DryRunGateway.check_sl_tp` for one position. -/
def stepTrailing (tm : TMCfg) (bar : BarOHLC) (pos : Position) : Position :=
  if pos.be_activated ∧ tm.trailing_enabled ∧ 0 < bar.atr ∧ 0 < pos.sl_pips then
    let trail_dist_price := pos.sl_pips * pipSizeQ * tm.trailing_start_r
    let trail_atr := bar.atr * tm.trailing_atr_mult
    if 0 < pos.direction then
      if pos.entry + trail_dist_price ≤ bar.high then
        let new_sl := bar.high - trail_atr
        if pos.sl < new_sl ∧ pos.entry < new_sl then { pos with sl := pyRound new_sl 5 }
        else pos
      else pos
    else
      if bar.low ≤ pos.entry - trail_dist_price then
        let new_sl := bar.low + trail_atr
        if new_sl < pos.sl ∧ new_sl < pos.entry then { pos with sl := pyRound new_sl 5 }
        else pos
      else pos
  else pos

/-- The SL/TP exit block of `DryRunGateway.check_sl_tp` for one position:
the stop is checked first, the target only in the `elif`. -/
def exitCheck (pos : Position) (bar : BarOHLC) : Option (ℚ × ExitReason) :=
  if 0 < pos.direction then
    if bar.low ≤ pos.sl then
      some (pos.sl,
        if pos.be_activated then
          (if |pos.sl - pos.entry| < pipSizeQ * 3 then ExitReason.beHit else ExitReason.trailHit)
        else ExitReason.slHit)
    else if pos.tp ≤ bar.high then some (pos.tp, ExitReason.tpHit)
    else none
  else
    if pos.sl ≤ bar.high then
      some (pos.sl,
        if pos.be_activated then
          (if |pos.sl - pos.entry| < pipSizeQ * 3 then ExitReason.beHit else ExitReason.trailHit)
        else ExitReason.slHit)
    else if bar.low ≤ pos.tp then some (pos.tp, ExitReason.tpHit)
    else none

/-- Outcome of processing one position through one bar of `check_sl_tp`. -/
structure PosBarResult where
  pos : Option Position
  rows : List TradeRow
  balanceDelta : ℚ
  deriving DecidableEq

/-- One position's pass through `check_sl_tp` (partial close, breakeven,
trailing, then the exit check on the possibly-updated stop). -/
def processPosBar (tm : TMCfg) (bar : BarOHLC) (pip_value_per_lot : ℚ)
    (now : ℤ) (pos : Position) : PosBarResult :=
  let r1 := stepPartialClose tm bar pip_value_per_lot now pos
  let p2 := stepBreakeven tm bar r1.1
  let p3 := stepTrailing tm bar p2
  match exitCheck p3 bar with
  | some pr =>
      let pnl := calcPnlOf pip_value_per_lot p3 pr.1 p3.lots
      { pos := none
        rows := r1.2.1.toList ++ [recordClose p3 pr.1 pnl pr.2 now]
        balanceDelta := r1.2.2 + pnl }
  | none =>
      { pos := some p3
        rows := r1.2.1.toList
        balanceDelta := r1.2.2 }

/-- `DryRunGateway.check_sl_tp` over the whole position set. -/
def checkSlTp (tm : TMCfg) (bar : BarOHLC) (now : ℤ) (gw : Gateway) : Gateway :=
  let res := gw.positions.foldl
    (fun (acc : ℚ × List TradeRow × List Position) pos =>
      let r := processPosBar tm bar gw.pip_value_per_lot now pos
      (acc.1 + r.balanceDelta, acc.2.1 ++ r.rows, acc.2.2 ++ r.pos.toList))
    (0, [], [])
  { gw with
    balance := gw.balance + res.1
    trade_history := gw.trade_history ++ res.2.1
    positions := res.2.2 }

/-- The breakeven block of `main.py manage_open_positions` for one position
(`modify_sl` on `DryRunGateway` always succeeds on an existing ticket and
rounds to 5 decimals). -/
def manageBe (tm : TMCfg) (r_multiple : ℚ) (pos : Position) : Position :=
  if tm.breakeven_enabled ∧ ¬pos.be_activated ∧ tm.breakeven_r ≤ r_multiple then
    if 0 < pos.direction then
      let new_sl := pos.entry + pipSizeQ
      if pos.sl < new_sl then { pos with sl := pyRound new_sl 5, be_activated := true }
      else pos
    else
      let new_sl := pos.entry - pipSizeQ
      if new_sl < pos.sl then { pos with sl := pyRound new_sl 5, be_activated := true }
      else pos
  else pos

/-- The trailing-stop block of `main.py manage_open_positions` for one
position. -/
def manageTrail (tm : TMCfg) (current atr r_multiple : ℚ) (pos : Position) : Position :=
  if tm.trailing_enabled ∧ pos.be_activated ∧ tm.trailing_start_r ≤ r_multiple ∧ 0 < atr then
    let trail_dist := atr * tm.trailing_atr_mult
    if 0 < pos.direction then
      let new_sl := current - trail_dist
      if pos.sl < new_sl ∧ pos.entry < new_sl then { pos with sl := pyRound new_sl 5 }
      else pos
    else
      let new_sl := current + trail_dist
      if new_sl < pos.sl ∧ new_sl < pos.entry then { pos with sl := pyRound new_sl 5 }
      else pos
  else pos

/-- `main.py manage_open_positions` for one position: breakeven then trailing,
against the live quote. -/
def managePos (tm : TMCfg) (bid ask atr : ℚ) (pos : Position) : Position :=
  if pos.sl_pips ≤ 0 then pos
  else
    let current := if 0 < pos.direction then bid else ask
    if current ≤ 0 then pos
    else
      let profit_pips := priceToPips
        (if 0 < pos.direction then current - pos.entry else pos.entry - current)
      let r_multiple := if 0 < pos.sl_pips then profit_pips / pos.sl_pips else 0
      manageTrail tm current atr r_multiple (manageBe tm r_multiple pos)

/-- `main.py manage_open_positions` over the gateway: it only modifies stops
of open positions; it closes nothing and records nothing. -/
def manageOpenPositions (tm : TMCfg) (atr : ℚ) (gw : Gateway) : Gateway :=
  { gw with positions := gw.positions.map (managePos tm gw.last_bid gw.last_ask atr) }

-- ===================================================================
-- main.py run_backtest: the per-bar sequence up to the compliance gate
-- ===================================================================

/-- The loop state of `run_backtest` that the per-bar claims touch. -/
structure BTState where
  gw : Gateway
  comp : CState
  trades_total : ℕ
  deriving DecidableEq

/-- The `while len(gateway.trade_history) > trades_total` loop of
`run_backtest`, folding each not-yet-processed row into
`compliance.on_trade_closed(pnl, gateway.balance)`; fuelled recursion on the
history length. -/
def foldClosesAux : ℕ → List TradeRow → ℕ → ℚ → CState → CState × ℕ
  | 0, _, tt, _, c => (c, tt)
  | Nat.succ fuel, hist, tt, bal, c =>
    match hist.get? tt with
    | some row => foldClosesAux fuel hist (tt + 1) bal (onTradeClosed row.pnl bal c)
    | none => (c, tt)

/-- Entry point for the close-processing loop of `run_backtest`. -/
def processNewCloses (hist : List TradeRow) (tt : ℕ) (bal : ℚ) (c : CState) :
    CState × ℕ :=
  foldClosesAux hist.length hist tt bal c

/-- Result of one backtest bar iteration up to and including the compliance
gate (`run_backtest` phases: `advance_time` → `update_price` → `check_sl_tp`
→ close-processing loop → `rule_check`; the h4-window and session `continue`
branches in between only skip the gate, they reorder nothing). -/
structure BarStep where
  stAfter : BTState
  compAtGate : CState
  newRows : List TradeRow
  gate : Option Block
  deriving DecidableEq

/-- One `run_backtest` bar iteration, stopped after the compliance gate.
`now` and `wallDay` are the wall-clock reads buried in `_record_close` and
`rule_check`. -/
def processBarPrefix (cc : CCfg) (tm : TMCfg) (bar : BarOHLC) (barDay : ℤ)
    (now wallDay : ℤ) (st : BTState) : BarStep :=
  let comp1 := advanceTime barDay st.gw.balance st.comp
  let gw1 := updatePrice st.gw bar.closePrice 0
  let gw2 := checkSlTp tm bar now gw1
  let fold := processNewCloses gw2.trade_history st.trades_total gw2.balance comp1
  let acct := getAccountInfo gw2
  let rc := ruleCheck cc wallDay acct.balance acct.equity gw2.spread_pips fold.1
  { stAfter := { gw := gw2, comp := rc.1, trades_total := fold.2 }
    compAtGate := fold.1
    newRows := gw2.trade_history.drop st.gw.trade_history.length
    gate := rc.2 }

-- ===================================================================
-- core/strategy.py and the SMC helpers of core/indicators.py
-- ===================================================================

/-- A bar row of the H1 DataFrame as the strategy reads it: timestamp split
into a UTC day index and hour, OHLC, and the indicator/SMC columns
(`calculate_all` always adds `ema_fast/ema_slow/ema_trend/rsi/atr/adx/di`;
SMC columns exist only when `calculate_smc` ran, see `Frame.smcCols`). -/
structure SBar where
  day : ℤ
  hour : ℤ
  openPrice : ℚ
  high : ℚ
  low : ℚ
  closePrice : ℚ
  atr : ℚ
  ema_trend : ℚ
  ema_slow : ℚ
  ema_fast : ℚ
  adx : ℚ
  plus_di : ℚ
  minus_di : ℚ
  rsi : ℚ
  fvg_bull : Bool
  fvg_bear : Bool
  liq_sweep_bull : Bool
  liq_sweep_bear : Bool
  ob_bull_bot : Option ℚ
  ob_bear_top : Option ℚ
  deriving DecidableEq

/-- The H1 window handed to `get_signal`: the bar rows in time order plus the
presence flag for the SMC columns (`"fvg_bull" in df.columns` etc.). -/
structure Frame where
  bars : List SBar
  smcCols : Bool
  deriving DecidableEq

/-- The `strategy` configuration section, with the source's `.get` defaults
materialised. -/
structure StratCfg where
  london_breakout : Bool
  rr_ratio : ℚ
  min_sl_pips : ℚ
  london_entry_start : ℤ
  london_entry_end : ℤ
  ny_entry_start : ℤ
  ny_entry_end : ℤ
  dual_session : Bool
  asian_start_hour : ℤ
  asian_end_hour : ℤ
  ny_range_start : ℤ
  ny_range_end : ℤ
  london_trend_filter : Bool
  range_buffer_atr : ℚ
  min_asian_range_pips : ℚ
  max_asian_range_pips : ℚ
  london_retest : Bool
  retest_lookback : ℕ
  smc_fvg_filter : Bool
  smc_fvg_lookback : ℕ
  smc_liq_sweep_bonus : Bool
  smc_liq_lookback : ℕ
  smc_ob_sl : Bool
  smc_require_confluence : Bool
  breakout_bars : ℕ
  h4_slope_bars : ℕ
  adx_threshold : ℚ
  di_separation : ℚ
  rsi_breakout_max : ℚ
  rsi_breakout_min : ℚ
  breakout_atr_sl : ℚ
  rsi_buy_low : ℚ
  rsi_buy_high : ℚ
  rsi_sell_low : ℚ
  rsi_sell_high : ℚ
  deriving DecidableEq

/-- `Signal` dataclass of `core/strategy.py`; reason strings keep only their
leading tag (the interpolated diagnostics carry no decision content). -/
structure Signal where
  direction : ℤ
  entry : ℚ
  sl : ℚ
  tp : ℚ
  sl_pips : ℚ
  tp_pips : ℚ
  reason : String
  deriving DecidableEq

/-- The shared `Signal(...)` constructor pattern of `core/strategy.py`:
prices rounded to 5 decimals, pip distances to 1. -/
def mkSignal (direction : ℤ) (entry sl tp sl_pips tp_pips : ℚ)
    (reason : String) : Signal :=
  { direction := direction
    entry := pyRound entry 5
    sl := pyRound sl 5
    tp := pyRound tp 5
    sl_pips := pyRound sl_pips 1
    tp_pips := pyRound tp_pips 1
    reason := reason }

/-- Python `h1.iloc[-k]` on the bar list (out of range gives `none`, where the
source would raise and thus produce no signal). -/
def getFromEnd (l : List SBar) (k : ℕ) : Option SBar :=
  if 1 ≤ k ∧ k ≤ l.length then l.get? (l.length - k) else none

/-- Maximum of the `high` column over a bar list (`["high"].max()`). -/
def maxHigh : List SBar → ℚ
  | [] => 0
  | b :: t => t.foldl (fun m x => max m x.high) b.high

/-- Minimum of the `low` column over a bar list (`["low"].min()`). -/
def minLow : List SBar → ℚ
  | [] => 0
  | b :: t => t.foldl (fun m x => min m x.low) b.low

/-- `core/indicators.py has_recent_fvg`. -/
def hasRecentFvg (fr : Frame) (idx : ℕ) (direction : ℤ) (lookback : ℕ) : Bool :=
  if ¬fr.smcCols then false
  else
    let window := (fr.bars.take (idx + 1)).drop (idx - lookback)
    if direction = 1 then window.any (fun b => b.fvg_bull)
    else window.any (fun b => b.fvg_bear)

/-- `core/indicators.py has_recent_liquidity_sweep`. -/
def hasRecentLiqSweep (fr : Frame) (idx : ℕ) (direction : ℤ) (lookback : ℕ) : Bool :=
  if ¬fr.smcCols then false
  else
    let window := (fr.bars.take (idx + 1)).drop (idx - lookback)
    if direction = 1 then window.any (fun b => b.liq_sweep_bull)
    else window.any (fun b => b.liq_sweep_bear)

/-- `core/indicators.py get_nearest_ob_sl` (caller uses the default
`max_sl_pips = 50`; `NaN` cells are `none`). -/
def getNearestObSl (fr : Frame) (idx : ℕ) (direction : ℤ) (entry max_sl_pips : ℚ) : ℚ :=
  if direction = 1 ∧ fr.smcCols then
    match (fr.bars.get? idx).bind SBar.ob_bull_bot with
    | some obBot =>
        if obBot < entry ∧ 10 ≤ priceToPips (entry - obBot) ∧
            priceToPips (entry - obBot) ≤ max_sl_pips then obBot else 0
    | none => 0
  else if direction = -1 ∧ fr.smcCols then
    match (fr.bars.get? idx).bind SBar.ob_bear_top with
    | some obTop =>
        if entry < obTop ∧ 10 ≤ priceToPips (obTop - entry) ∧
            priceToPips (obTop - entry) ≤ max_sl_pips then obTop else 0
    | none => 0
  else 0

/-- The BUY-retest block of `_london_breakout` (mode A): prior breakout above
the range high, current bar dipped to the level and bounced. -/
def buyRetestAttempt (s : StratCfg) (b0 : SBar) (close atr ema200 buffer
    bodyRatio asianHigh : ℚ) (buyBreakoutFound : Bool) (current_ask : ℚ) :
    Option Signal :=
  if buyBreakoutFound ∧ asianHigh < close then
    if b0.low ≤ asianHigh + atr * (3/10) ∧ asianHigh < close ∧ b0.openPrice < close then
      if s.london_trend_filter ∧ 0 < ema200 ∧ close < ema200 then none
      else if bodyRatio < 1/4 then none
      else
        let entry := if 0 < current_ask then current_ask else close
        let sl := b0.low - buffer
        let slDist := entry - sl
        let slPips := priceToPips slDist
        if s.min_sl_pips ≤ slPips ∧ slPips ≤ 50 then
          let tp := entry + slDist * s.rr_ratio
          some (mkSignal 1 entry sl tp slPips (priceToPips (tp - entry)) "BUY_RETEST")
        else none
    else none
  else none

/-- The SELL-retest block of `_london_breakout` (mode A). -/
def sellRetestAttempt (s : StratCfg) (b0 : SBar) (close atr ema200 buffer
    bodyRatio asianLow : ℚ) (sellBreakoutFound : Bool) (current_bid : ℚ) :
    Option Signal :=
  if sellBreakoutFound ∧ close < asianLow then
    if asianLow - atr * (3/10) ≤ b0.high ∧ close < asianLow ∧ close < b0.openPrice then
      if s.london_trend_filter ∧ 0 < ema200 ∧ ema200 < close then none
      else if bodyRatio < 1/4 then none
      else
        let entry := if 0 < current_bid then current_bid else close
        let sl := b0.high + buffer
        let slDist := sl - entry
        let slPips := priceToPips slDist
        if s.min_sl_pips ≤ slPips ∧ slPips ≤ 50 then
          let tp := entry - slDist * s.rr_ratio
          some (mkSignal (-1) entry sl tp slPips (priceToPips (entry - tp)) "SELL_RETEST")
        else none
    else none
  else none

/-- The immediate-momentum BUY entry of mode A (first breakout bar, very
strong body). -/
def rawBuyAttempt (s : StratCfg) (b0 : SBar) (close ema200 buffer bodyRatio
    asianHigh asianLow : ℚ) (buyBreakoutFound : Bool) (current_ask : ℚ) :
    Option Signal :=
  if asianHigh < close ∧ ¬buyBreakoutFound then
    if 1/2 ≤ bodyRatio ∧ b0.openPrice < close then
      if ¬(s.london_trend_filter ∧ 0 < ema200 ∧ close < ema200) then
        let entry := if 0 < current_ask then current_ask else close
        let sl := asianLow - buffer
        let slDist := entry - sl
        let slPips := priceToPips slDist
        if s.min_sl_pips ≤ slPips ∧ slPips ≤ 80 then
          let tp := entry + slDist * s.rr_ratio
          some (mkSignal 1 entry sl tp slPips (priceToPips (tp - entry)) "BUY_LONDON")
        else none
      else none
    else none
  else none

/-- The immediate-momentum SELL entry of mode A. -/
def rawSellAttempt (s : StratCfg) (b0 : SBar) (close ema200 buffer bodyRatio
    asianHigh asianLow : ℚ) (sellBreakoutFound : Bool) (current_bid : ℚ) :
    Option Signal :=
  if close < asianLow ∧ ¬sellBreakoutFound then
    if 1/2 ≤ bodyRatio ∧ close < b0.openPrice then
      if ¬(s.london_trend_filter ∧ 0 < ema200 ∧ ema200 < close) then
        let entry := if 0 < current_bid then current_bid else close
        let sl := asianHigh + buffer
        let slDist := sl - entry
        let slPips := priceToPips slDist
        if s.min_sl_pips ≤ slPips ∧ slPips ≤ 80 then
          let tp := entry - slDist * s.rr_ratio
          some (mkSignal (-1) entry sl tp slPips (priceToPips (entry - tp)) "SELL_LONDON")
        else none
      else none
    else none
  else none

/-- The BUY section of `_london_breakout` mode B (SMC-enhanced breakout).
`some none` stands for an explicit `return None` of the source, plain `none`
for falling through to the SELL section. -/
def smcBuySection (fr : Frame) (s : StratCfg) (b0 : SBar) (close ema200 buffer
    bodyRatio asianHigh asianLow : ℚ) (current_ask : ℚ) : Option (Option Signal) :=
  let barIdx := fr.bars.length - 1
  if asianHigh < close then
    if s.london_trend_filter ∧ 0 < ema200 ∧ close < ema200 then none
    else if bodyRatio < 3/10 ∨ close ≤ b0.openPrice then none
    else
      let hasFvg := s.smc_fvg_filter && hasRecentFvg fr barIdx 1 s.smc_fvg_lookback
      let hasSweep := s.smc_liq_sweep_bonus && hasRecentLiqSweep fr barIdx 1 s.smc_liq_lookback
      let nTags0 : ℕ := (if hasFvg then 1 else 0) + (if hasSweep then 1 else 0)
      if s.smc_require_confluence ∧ nTags0 = 0 then none
      else
        let entry := if 0 < current_ask then current_ask else close
        let obSl := if s.smc_ob_sl then getNearestObSl fr barIdx 1 entry 50 else 0
        let obUsed : Bool := s.smc_ob_sl && decide (0 < obSl)
        let sl := if obUsed then obSl - buffer * (1/2) else asianLow - buffer
        let nTags := nTags0 + (if obUsed then 1 else 0)
        let slDist := entry - sl
        let slPips := priceToPips slDist
        if s.min_sl_pips ≤ slPips ∧ slPips ≤ 80 then
          let effRr := if 2 ≤ nTags then s.rr_ratio * (23/20) else s.rr_ratio
          let tp := entry + slDist * effRr
          some (some (mkSignal 1 entry sl tp slPips (priceToPips (tp - entry)) "BUY_SMC"))
        else some none
  else none

/-- The SELL section of `_london_breakout` mode B. -/
def smcSellSection (fr : Frame) (s : StratCfg) (b0 : SBar) (close ema200 buffer
    bodyRatio asianHigh asianLow : ℚ) (current_bid : ℚ) : Option (Option Signal) :=
  let barIdx := fr.bars.length - 1
  if close < asianLow then
    if s.london_trend_filter ∧ 0 < ema200 ∧ ema200 < close then none
    else if bodyRatio < 3/10 ∨ b0.openPrice ≤ close then none
    else
      let hasFvg := s.smc_fvg_filter && hasRecentFvg fr barIdx (-1) s.smc_fvg_lookback
      let hasSweep := s.smc_liq_sweep_bonus && hasRecentLiqSweep fr barIdx (-1) s.smc_liq_lookback
      let nTags0 : ℕ := (if hasFvg then 1 else 0) + (if hasSweep then 1 else 0)
      if s.smc_require_confluence ∧ nTags0 = 0 then none
      else
        let entry := if 0 < current_bid then current_bid else close
        let obSl := if s.smc_ob_sl then getNearestObSl fr barIdx (-1) entry 50 else 0
        let obUsed : Bool := s.smc_ob_sl && decide (0 < obSl)
        let sl := if obUsed then obSl + buffer * (1/2) else asianHigh + buffer
        let nTags := nTags0 + (if obUsed then 1 else 0)
        let slDist := sl - entry
        let slPips := priceToPips slDist
        if s.min_sl_pips ≤ slPips ∧ slPips ≤ 80 then
          let effRr := if 2 ≤ nTags then s.rr_ratio * (23/20) else s.rr_ratio
          let tp := entry - slDist * effRr
          some (some (mkSignal (-1) entry sl tp slPips (priceToPips (entry - tp)) "SELL_SMC"))
        else some none
  else none

/-- The `if result is not None: return result` chaining of two strategy
sections (each section returns `some r` for an explicit `return r`, `none` to
fall through). -/
def chain2 (a b : Option (Option Signal)) : Option Signal :=
  match a with
  | some r => r
  | none =>
    match b with
    | some r => r
    | none => none

/-- The range-window selection of `_london_breakout`: today's bars in the
range session, falling back to yesterday's when fewer than 3 rows matched. -/
def rangeBarsOf (fr : Frame) (s : StratCfg) (b0 : SBar) (inLondon : Bool) :
    List SBar :=
  let rangeStartH := if inLondon then s.asian_start_hour else s.ny_range_start
  let rangeEndH := if inLondon then s.asian_end_hour else s.ny_range_end
  let rangeBars0 := fr.bars.filter
    (fun b => decide (b0.day ≤ b.day ∧ rangeStartH ≤ b.hour ∧ b.hour < rangeEndH))
  if rangeBars0.length < 3 then
    fr.bars.filter (fun b => decide (b0.day - 1 ≤ b.day ∧ b.day < b0.day ∧
      rangeStartH ≤ b.hour ∧ b.hour < rangeEndH))
  else rangeBars0

/-- `core/strategy.py _london_breakout`. The `diag[...]` counter updates are
the observability side-channel of spec §4.3 and are not modelled. -/
def londonBreakout (fr : Frame) (s : StratCfg) (current_ask current_bid : ℚ) :
    Option Signal :=
  if fr.bars.length < 30 then none else
  match getFromEnd fr.bars 1 with
  | none => none
  | some b0 =>
    let barHour := b0.hour
    let close := b0.closePrice
    let atr := b0.atr
    if atr = 0 then none else
    let inLondon : Bool := decide (s.london_entry_start ≤ barHour ∧ barHour < s.london_entry_end)
    let inNY : Bool := s.dual_session &&
      decide (s.ny_entry_start ≤ barHour ∧ barHour < s.ny_entry_end)
    if ¬inLondon ∧ ¬inNY then none else
    let rangeBars := rangeBarsOf fr s b0 inLondon
    if rangeBars.length < 3 then none else
    let asianHigh := maxHigh rangeBars
    let asianLow := minLow rangeBars
    let asianRangePips := priceToPips (asianHigh - asianLow)
    if asianRangePips < s.min_asian_range_pips ∨ s.max_asian_range_pips < asianRangePips
      then none else
    let ema200 := b0.ema_trend
    let buffer := atr * s.range_buffer_atr
    let barRange := b0.high - b0.low
    let bodySize := |close - b0.openPrice|
    let bodyRatio := if 0 < barRange then bodySize / barRange else 0
    if s.london_retest then
      -- MODE A: retest entry
      let recentBars := fr.bars.dropLast.drop (fr.bars.length - 1 - s.retest_lookback)
      let buyBreakoutFound := recentBars.any (fun rb =>
        decide (s.london_entry_start ≤ rb.hour ∧ rb.hour < s.london_entry_end ∧
          asianHigh < rb.closePrice ∧ rb.openPrice < rb.closePrice))
      let sellBreakoutFound := recentBars.any (fun rb =>
        decide (s.london_entry_start ≤ rb.hour ∧ rb.hour < s.london_entry_end ∧
          rb.closePrice < asianLow ∧ rb.closePrice < rb.openPrice))
      (buyRetestAttempt s b0 close atr ema200 buffer bodyRatio asianHigh
          buyBreakoutFound current_ask).orElse fun _ =>
        (sellRetestAttempt s b0 close atr ema200 buffer bodyRatio asianLow
            sellBreakoutFound current_bid).orElse fun _ =>
          (rawBuyAttempt s b0 close ema200 buffer bodyRatio asianHigh asianLow
              buyBreakoutFound current_ask).orElse fun _ =>
            rawSellAttempt s b0 close ema200 buffer bodyRatio asianHigh asianLow
              sellBreakoutFound current_bid
    else
      -- MODE B: SMC-enhanced breakout
      chain2
        (smcBuySection fr s b0 close ema200 buffer bodyRatio asianHigh asianLow
          current_ask)
        (smcSellSection fr s b0 close ema200 buffer bodyRatio asianHigh asianLow
          current_bid)

/-- The EMA21-pullback BUY fallback of `_momentum_breakout`. -/
def buyPullbackAttempt (fr : Frame) (s : StratCfg) (b0 : SBar)
    (close ema21 atr rsi bodyRatio : ℚ) (current_ask : ℚ) : Option Signal :=
  match getFromEnd fr.bars 2 with
  | none => none
  | some b1 =>
    if b1.ema_fast < ema21 ∧ b1.closePrice ≤ ema21 ∧ ema21 + atr * (1/20) < close then
      if s.rsi_buy_low ≤ rsi ∧ rsi ≤ s.rsi_buy_high ∧
          b0.openPrice < close ∧ 3/10 ≤ bodyRatio then
        let swingLow := minLow (fr.bars.drop (fr.bars.length - 5))
        let sl := swingLow - atr * (1/2)
        let entry := if 0 < current_ask then current_ask else close
        let slDist := entry - sl
        let slPip := priceToPips slDist
        if atr * (3/10) ≤ slDist ∧ slDist ≤ atr * 4 ∧
            s.min_sl_pips ≤ slPip ∧ slPip ≤ 80 then
          let tp := entry + slDist * s.rr_ratio
          some (mkSignal 1 entry sl tp slPip (priceToPips (tp - entry)) "BUY_PULL")
        else none
      else none
    else none

/-- The EMA21-pullback SELL fallback of `_momentum_breakout`. -/
def sellPullbackAttempt (fr : Frame) (s : StratCfg) (b0 : SBar)
    (close ema21 atr rsi bodyRatio : ℚ) (current_bid : ℚ) : Option Signal :=
  match getFromEnd fr.bars 2 with
  | none => none
  | some b1 =>
    if ema21 < b1.ema_fast ∧ ema21 ≤ b1.closePrice ∧ close < ema21 - atr * (1/20) then
      if s.rsi_sell_low ≤ rsi ∧ rsi ≤ s.rsi_sell_high ∧
          close < b0.openPrice ∧ 3/10 ≤ bodyRatio then
        let swingHigh := maxHigh (fr.bars.drop (fr.bars.length - 5))
        let sl := swingHigh + atr * (1/2)
        let entry := if 0 < current_bid then current_bid else close
        let slDist := sl - entry
        let slPip := priceToPips slDist
        if atr * (3/10) ≤ slDist ∧ slDist ≤ atr * 4 ∧
            s.min_sl_pips ≤ slPip ∧ slPip ≤ 80 then
          let tp := entry - slDist * s.rr_ratio
          some (mkSignal (-1) entry sl tp slPip (priceToPips (entry - tp)) "SELL_PULL")
        else none
      else none
    else none

/-- The uptrend (BUY) section of `_momentum_breakout`: Donchian breakout with
RSI/body gates (an explicit `return None` is `some none`), falling back to the
pullback entry. -/
def momBuySection (fr : Frame) (s : StratCfg) (b0 : SBar)
    (close ema21 atr rsi bodyRatio : ℚ) (uptrend : Bool) (lookback : List SBar)
    (current_ask : ℚ) : Option (Option Signal) :=
  if uptrend then
    if maxHigh lookback < close then
      if s.rsi_breakout_max < rsi then some none
      else if bodyRatio < 2/5 ∨ close ≤ b0.openPrice then some none
      else
        let entry := if 0 < current_ask then current_ask else close
        let slDist := atr * s.breakout_atr_sl
        let sl := entry - slDist
        let tp := entry + slDist * s.rr_ratio
        let slPips := priceToPips slDist
        if s.min_sl_pips ≤ slPips ∧ slPips ≤ 80 then
          some (some (mkSignal 1 entry sl tp slPips (priceToPips (tp - entry)) "BUY_BREAK"))
        else
          Option.map some (buyPullbackAttempt fr s b0 close ema21 atr rsi bodyRatio current_ask)
    else
      Option.map some (buyPullbackAttempt fr s b0 close ema21 atr rsi bodyRatio current_ask)
  else none

/-- The downtrend (SELL) section of `_momentum_breakout`. -/
def momSellSection (fr : Frame) (s : StratCfg) (b0 : SBar)
    (close ema21 atr rsi bodyRatio : ℚ) (downtrend : Bool) (lookback : List SBar)
    (current_bid : ℚ) : Option (Option Signal) :=
  if downtrend then
    if close < minLow lookback then
      if rsi < s.rsi_breakout_min then some none
      else if bodyRatio < 2/5 ∨ b0.openPrice ≤ close then some none
      else
        let entry := if 0 < current_bid then current_bid else close
        let slDist := atr * s.breakout_atr_sl
        let sl := entry + slDist
        let tp := entry - slDist * s.rr_ratio
        let slPips := priceToPips slDist
        if s.min_sl_pips ≤ slPips ∧ slPips ≤ 80 then
          some (some (mkSignal (-1) entry sl tp slPips (priceToPips (entry - tp)) "SELL_BREAK"))
        else
          Option.map some (sellPullbackAttempt fr s b0 close ema21 atr rsi bodyRatio current_bid)
    else
      Option.map some (sellPullbackAttempt fr s b0 close ema21 atr rsi bodyRatio current_bid)
  else none

/-- `core/strategy.py _momentum_breakout`. Same conventions as
`londonBreakout`. -/
def momentumBreakout (fr : Frame) (s : StratCfg) (current_ask current_bid : ℚ) :
    Option Signal :=
  if fr.bars.length < max (s.breakout_bars + 3) 50 then none else
  match getFromEnd fr.bars 1 with
  | none => none
  | some b0 =>
    let close := b0.closePrice
    let ema200 := b0.ema_trend
    let ema50 := b0.ema_slow
    let ema21 := b0.ema_fast
    let adx := b0.adx
    let plusDi := b0.plus_di
    let minusDi := b0.minus_di
    let rsi := b0.rsi
    let atr := b0.atr
    if ema200 = 0 ∨ ema50 = 0 ∨ ema21 = 0 ∨ atr = 0 ∨ adx = 0 then none else
    match getFromEnd fr.bars (s.h4_slope_bars + 1) with
    | none => none
    | some bPrev =>
      let ema200prev := bPrev.ema_trend
      if ema200prev = 0 then none else
      let uptrend : Bool := decide (ema200 < close ∧ ema200 < ema50 ∧
        ema200prev < ema200 ∧ s.adx_threshold < adx ∧ minusDi + s.di_separation < plusDi)
      let downtrend : Bool := decide (close < ema200 ∧ ema50 < ema200 ∧
        ema200 < ema200prev ∧ s.adx_threshold < adx ∧ plusDi + s.di_separation < minusDi)
      if ¬uptrend ∧ ¬downtrend then none else
      let lookback := fr.bars.dropLast.drop (fr.bars.length - 1 - s.breakout_bars)
      if lookback.length < s.breakout_bars then none else
      let barRange := b0.high - b0.low
      let bodySize := |close - b0.openPrice|
      let bodyRatio := if 0 < barRange then bodySize / barRange else 0
      chain2
        (momBuySection fr s b0 close ema21 atr rsi bodyRatio uptrend lookback
          current_ask)
        (momSellSection fr s b0 close ema21 atr rsi bodyRatio downtrend lookback
          current_bid)

/-- `core/strategy.py get_signal`: route by the `london_breakout` flag. -/
def getSignal (fr : Frame) (s : StratCfg) (current_ask current_bid : ℚ) :
    Option Signal :=
  if s.london_breakout then londonBreakout fr s current_ask current_bid
  else momentumBreakout fr s current_ask current_bid

-- ===================================================================
-- Properties under verification and concrete fixtures
-- ===================================================================

/-- A well-formed OHLC bar row: extremes bracket open and close, and the ATR
column is non-negative (ATR is a smoothed max of absolute ranges). -/
def wfBar (b : SBar) : Prop :=
  b.low ≤ b.openPrice ∧ b.openPrice ≤ b.high ∧ b.low ≤ b.closePrice ∧
  b.closePrice ≤ b.high ∧ 0 ≤ b.atr

/-- Sanity bounds on the strategy configuration: reward:risk at least 1, the
minimum stop band at least 1 pip and integral, non-negative range buffer,
positive ATR stop multiple. -/
def cfgSane (s : StratCfg) : Prop :=
  1 ≤ s.rr_ratio ∧ 1 ≤ s.min_sl_pips ∧ 0 ≤ s.range_buffer_atr ∧
  0 < s.breakout_atr_sl ∧ (∃ m : ℤ, s.min_sl_pips = (m : ℚ))

/-- The claimed geometry postcondition on a generated `Signal`: entry strictly
between stop and target in the trade's direction, and the reported stop
distance within the `[min_sl_pips, 80]` pip band. -/
def SignalOk (minPips : ℚ) (sig : Signal) : Prop :=
  (sig.direction = 1 ∧ sig.sl < sig.entry ∧ sig.entry < sig.tp
    ∨ sig.direction = -1 ∧ sig.tp < sig.entry ∧ sig.entry < sig.sl)
  ∧ minPips ≤ sig.sl_pips ∧ sig.sl_pips ≤ 80

instance : DecidablePred wfBar := fun b => by
  unfold wfBar
  infer_instance

instance (minPips : ℚ) (sig : Signal) : Decidable (SignalOk minPips sig) := by
  unfold SignalOk
  infer_instance

/-- A concrete compliance configuration (initial balance 10000, 5% daily loss,
10% total drawdown, 2 consecutive-loss pause, reduce after 3). -/
def exCfg : CCfg :=
  { initial_balance := 10000
    max_daily_loss_pct := 5
    max_total_dd_pct := 10
    trailing_dd_enabled := false
    trailing_dd_pct := 6
    max_consec_losses := 2
    max_trades_per_day := 10
    reduce_risk_after := 3
    risk_pct_normal := 1
    risk_pct_reduced := 1/2
    max_spread := 3
    dd_tier1_pct := 3
    dd_tier2_pct := 5
    dd_tier2_factor := 2/5 }

/-- A compliance state on day 100 with a 2-loss streak. -/
def exState1 : CState :=
  { state := RiskState.NORMAL
    consec_losses := 2
    trades_today := 0
    today_closed_pnl := 0
    prev_eod_balance := 10000
    high_water_mark := 10000
    last_equity := 10000
    current_day := 100 }

/-- A compliance state in WEEKLY_PAUSE whose last equity sits 10% under the
high-water mark (beyond drawdown tier 2). -/
def exStateW : CState :=
  { state := RiskState.WEEKLY_PAUSE
    consec_losses := 0
    trades_today := 0
    today_closed_pnl := 0
    prev_eod_balance := 10000
    high_water_mark := 10000
    last_equity := 9000
    current_day := 100 }

/-- A long position: entry 1.1000, stop 1.0900, target 1.1200, 1 lot. -/
def exPos : Position :=
  { ticket := 1000
    direction := 1
    entry := 11/10
    sl := 109/100
    tp := 112/100
    lots := 1
    strategy := "TrendPullback"
    open_time := 0
    sl_pips := 100
    be_activated := false
    partial_closed := false }

/-- The spec's stop-priority example position: long, stop 1.0980, target
1.1100. -/
def exPos9 : Position :=
  { ticket := 1
    direction := 1
    entry := 11/10
    sl := 1098/1000
    tp := 111/100
    lots := 1
    strategy := "x"
    open_time := 0
    sl_pips := 20
    be_activated := false
    partial_closed := false }

/-- The spec's stop-priority example bar: low 1.0975 breaches the stop and
high 1.1120 breaches the target on the same bar. -/
def exBar9 : BarOHLC :=
  { high := 1112/1000, low := 10975/10000, openPrice := 11/10, closePrice := 111/100, atr := 0 }

/-- Trade management with partial close (1R, 50%), breakeven at 0.5R and ATR
trailing from 0.5R. -/
def tmC6 : TMCfg :=
  { breakeven_enabled := true
    breakeven_r := 1/2
    trailing_enabled := true
    trailing_start_r := 1/2
    trailing_atr_mult := 1/2
    partial_close_enabled := true
    partial_close_r := 1
    partial_close_pct := 50 }

/-- Long 1.1000 with a 50-pip stop, before any management. -/
def posC6 : Position :=
  { ticket := 1
    direction := 1
    entry := 11/10
    sl := 1095/1000
    tp := 112/100
    lots := 1
    strategy := "x"
    open_time := 0
    sl_pips := 50
    be_activated := false
    partial_closed := false }

/-- First bar: high 1.1040 activates breakeven and trails the stop to 1.1035;
low 1.1036 keeps the position open. -/
def barC6a : BarOHLC :=
  { high := 1104/1000, low := 11036/10000, openPrice := 1101/1000, closePrice := 1103/1000,
    atr := 1/1000 }

/-- Second bar: high 1.1052 touches the 1R partial-close target; ATR column 0
so the trailing block stays idle. -/
def barC6b : BarOHLC :=
  { high := 11052/10000, low := 1104/1000, openPrice := 1104/1000, closePrice := 1105/1000,
    atr := 0 }

/-- `posC6` after `barC6a`: breakeven active, stop trailed to 1.1035. -/
def posC6a : Position :=
  { ticket := 1
    direction := 1
    entry := 11/10
    sl := 2207/2000
    tp := 112/100
    lots := 1
    strategy := "x"
    open_time := 0
    sl_pips := 50
    be_activated := true
    partial_closed := false }

/-- `posC6a` after `barC6b`: the partial close re-based the stop to 1.1001,
below the 1.1035 already reached. -/
def posC6b : Position :=
  { ticket := 1
    direction := 1
    entry := 11/10
    sl := 11001/10000
    tp := 112/100
    lots := 1/2
    strategy := "x"
    open_time := 0
    sl_pips := 50
    be_activated := true
    partial_closed := true }

/-- Trade management with every mechanism disabled. -/
def tmOff : TMCfg :=
  { breakeven_enabled := false
    breakeven_r := 1
    trailing_enabled := false
    trailing_start_r := 1
    trailing_atr_mult := 1
    partial_close_enabled := false
    partial_close_r := 1
    partial_close_pct := 50 }

/-- A backtest gateway holding one open position and an empty ledger. -/
def gwC4 : Gateway :=
  { balance := 10000
    positions := [exPos]
    next_ticket := 1001
    trade_history := []
    last_ask := 0
    last_bid := 0
    spread_pips := 1
    slippage_pips := 1/2
    pip_value_per_lot := 10 }

/-- Backtest loop state over `gwC4`. -/
def stC4 : BTState :=
  { gw := gwC4, comp := exState1, trades_total := 0 }

/-- A bar whose low 1.0850 stops out `exPos` at 1.0900. -/
def barC4 : BarOHLC :=
  { high := 1096/1000, low := 1085/1000, openPrice := 1095/1000, closePrice := 109/100, atr := 0 }

/-- Strategy-bar constructor with neutral indicator columns. -/
def mkB (day hour : ℤ) (o hi lo c atr : ℚ) : SBar :=
  { day := day
    hour := hour
    openPrice := o
    high := hi
    low := lo
    closePrice := c
    atr := atr
    ema_trend := 0
    ema_slow := 0
    ema_fast := 0
    adx := 0
    plus_di := 0
    minus_di := 0
    rsi := 50
    fvg_bull := false
    fvg_bear := false
    liq_sweep_bull := false
    liq_sweep_bear := false
    ob_bull_bot := none
    ob_bear_top := none }

/-- An Asian-session range bar (hour 3, range 1.1020-1.1040). -/
def asianB : SBar := mkB 100 3 (11030/10000) (1104/1000) (1102/1000) (11030/10000) (1/1000)

/-- The London breakout bar: hour 8, close 1.1050 above the Asian high. -/
def b0C8 : SBar := mkB 100 8 (11042/10000) (11052/10000) (11041/10000) (1105/1000) (1/1000)

/-- A 30-bar H1 window ending in a clean mode-B London breakout. -/
def frameC8 : Frame := { bars := List.replicate 29 asianB ++ [b0C8], smcCols := false }

/-- A mode-B (`london_retest = false`) London-breakout configuration with the
SMC filters disabled. -/
def cfgStratB : StratCfg :=
  { london_breakout := true
    rr_ratio := 2
    min_sl_pips := 6
    london_entry_start := 7
    london_entry_end := 10
    ny_entry_start := 13
    ny_entry_end := 16
    dual_session := false
    asian_start_hour := 0
    asian_end_hour := 6
    ny_range_start := 7
    ny_range_end := 12
    london_trend_filter := false
    range_buffer_atr := 1
    min_asian_range_pips := 5
    max_asian_range_pips := 100
    london_retest := false
    retest_lookback := 3
    smc_fvg_filter := false
    smc_fvg_lookback := 6
    smc_liq_sweep_bonus := false
    smc_liq_lookback := 8
    smc_ob_sl := false
    smc_require_confluence := false
    breakout_bars := 20
    h4_slope_bars := 2
    adx_threshold := 18
    di_separation := 2
    rsi_breakout_max := 78
    rsi_breakout_min := 25
    breakout_atr_sl := 15/10
    rsi_buy_low := 38
    rsi_buy_high := 62
    rsi_sell_low := 38
    rsi_sell_high := 62 }

/-- The broken Signal produced from `frameC8` when a stale live ask 1.0990 is
supplied: a BUY whose stop 1.1010 sits above its entry. -/
def sigC8 : Signal :=
  { direction := 1
    entry := 1099/1000
    sl := 1101/1000
    tp := 1095/1000
    sl_pips := 20
    tp_pips := 40
    reason := "BUY_SMC" }

/-- The Signal produced from `frameC8` in backtest mode (ask = bid = 0,
entry = bar close 1.1050). -/
def sigC8b : Signal :=
  { direction := 1
    entry := 1105/1000
    sl := 1101/1000
    tp := 1113/1000
    sl_pips := 40
    tp_pips := 80
    reason := "BUY_SMC" }

-- ===================================================================
-- Theorems
-- ===================================================================

theorem rndHalfEven_intCast (n : ℤ) : rndHalfEven (n : ℚ) = n := by
  unfold rndHalfEven
  rw [Int.floor_intCast]
  norm_num

theorem rndHalfEven_sub_le (x : ℚ) : |x - rndHalfEven x| ≤ 1/2 := by
  have h0 : (⌊x⌋ : ℚ) ≤ x := Int.floor_le x
  have h1 : x < (⌊x⌋ : ℚ) + 1 := Int.lt_floor_add_one x
  unfold rndHalfEven
  split
  · rw [abs_sub_le_iff]
    constructor <;> linarith
  · rename_i hlt
    push_neg at hlt
    split
    · push_cast
      rw [abs_sub_le_iff]
      constructor <;> linarith
    · split
      · rw [abs_sub_le_iff]
        constructor <;> linarith
      · push_cast
        rw [abs_sub_le_iff]
        constructor <;> linarith

theorem le_rndHalfEven_of_int {x : ℚ} {m : ℤ} (h : (m : ℚ) ≤ x) :
    m ≤ rndHalfEven x := by
  have hb := rndHalfEven_sub_le x
  rw [abs_sub_le_iff] at hb
  have hq : ((m : ℚ) - 1) < (rndHalfEven x : ℚ) := by linarith [hb.1]
  have : (m - 1 : ℤ) < rndHalfEven x := by exact_mod_cast hq
  omega

theorem rndHalfEven_le_of_int {x : ℚ} {m : ℤ} (h : x ≤ (m : ℚ)) :
    rndHalfEven x ≤ m := by
  have hb := rndHalfEven_sub_le x
  rw [abs_sub_le_iff] at hb
  have hq : (rndHalfEven x : ℚ) < (m : ℚ) + 1 := by linarith [hb.2]
  have : rndHalfEven x < m + 1 := by exact_mod_cast hq
  omega

theorem le_pyRound (x : ℚ) (n : ℕ) {m : ℤ} (h : (m : ℚ) / 10 ^ n ≤ x) :
    (m : ℚ) / 10 ^ n ≤ pyRound x n := by
  have hp : (0:ℚ) < 10 ^ n := by positivity
  have hmx : (m : ℚ) ≤ x * 10 ^ n := by
    rw [div_le_iff hp] at h
    exact h
  have := le_rndHalfEven_of_int hmx
  unfold pyRound
  rw [div_le_div_iff hp hp]
  have : (m : ℚ) ≤ (rndHalfEven (x * 10 ^ n) : ℚ) := by exact_mod_cast this
  nlinarith

theorem pyRound_le (x : ℚ) (n : ℕ) {m : ℤ} (h : x ≤ (m : ℚ) / 10 ^ n) :
    pyRound x n ≤ (m : ℚ) / 10 ^ n := by
  have hp : (0:ℚ) < 10 ^ n := by positivity
  have hmx : x * 10 ^ n ≤ (m : ℚ) := by
    rw [le_div_iff hp] at h
    exact h
  have := rndHalfEven_le_of_int hmx
  unfold pyRound
  rw [div_le_div_iff hp hp]
  have : (rndHalfEven (x * 10 ^ n) : ℚ) ≤ (m : ℚ) := by exact_mod_cast this
  nlinarith

theorem pyRound_intMul (m : ℤ) (n : ℕ) (x : ℚ) (hx : x = (m : ℚ) / 10 ^ n) :
    pyRound x n = x := by
  subst hx
  have hp : (10:ℚ) ^ n ≠ 0 := by positivity
  unfold pyRound
  rw [div_mul_cancel₀ _ hp, rndHalfEven_intCast]

theorem pyRound_sub_le (x : ℚ) (n : ℕ) :
    |pyRound x n - x| ≤ 1 / (2 * 10 ^ n) := by
  have hp : (0:ℚ) < 10 ^ n := by positivity
  have h := rndHalfEven_sub_le (x * 10 ^ n)
  rw [abs_sub_comm] at h
  unfold pyRound
  have heq : (rndHalfEven (x * 10 ^ n) : ℚ) / 10 ^ n - x
      = ((rndHalfEven (x * 10 ^ n) : ℚ) - x * 10 ^ n) / 10 ^ n := by
    field_simp
    ring
  rw [heq, abs_div, abs_of_pos hp, div_le_div_iff hp (by positivity)]
  nlinarith


-- Concrete evaluations reduce `Rat` arithmetic through the kernel; Batteries
-- marks the `Rat` operations `@[irreducible]`, which only hides them from
-- unification — the sections below restore semireducibility locally so that
-- `decide` can evaluate, without affecting the symbolic proofs outside.

section ConcreteEvalA

set_option allowUnsafeReducibility true

attribute [local semireducible] Rat.mul Rat.add Rat.sub Rat.inv Rat.div

/-- C1: the backtest determinism claim fails in the code. `rule_check`
unconditionally consults the wall-clock date (`_check_new_day_realtime`), so
the pre-trade gate's verdict flips with the wall-clock day alone: on the very
same engine state (day 100, a 2-loss streak that mandates DAILY_PAUSE), the
gate blocks when the wall clock still reads day 100 but allows trading when it
reads day 101 (the streak is silently reset). Moreover `_record_close` stamps
`datetime.now` into the ledger row, so two runs over the same bars yield
different ledgers. -/
theorem ruleCheck_depends_on_wall_clock :
    (ruleCheck exCfg 100 10000 10000 0 exState1).2 = some Block.dailyPause
    ∧ (ruleCheck exCfg 101 10000 10000 0 exState1).2 = none
    ∧ (ruleCheck exCfg 101 10000 10000 0 exState1).1.consec_losses = 0
    ∧ exState1.consec_losses = 2
    ∧ recordClose exPos (109/100) (-1000) ExitReason.slHit 500
      ≠ recordClose exPos (109/100) (-1000) ExitReason.slHit 501 := by
  refine ⟨by decide, by decide, by decide, by decide, by decide⟩

/-- C2: KILL_SWITCH is not sticky in `_update_state`. From the initial state,
equity 8000 (20% total drawdown ≥ the 10% limit) enters KILL_SWITCH; a later
`_update_state` with equity fully recovered recomputes the cascade and leaves
KILL_SWITCH for NORMAL, contradicting the sticky invariant the spec states
and the source's own "kill switch persists" comments. -/
theorem killSwitch_cleared_by_equity_recovery :
    (updateState exCfg 10000 8000 (initCState exCfg 100)).state = RiskState.KILL_SWITCH
    ∧ (updateState exCfg 10000 10000
        (updateState exCfg 10000 8000 (initCState exCfg 100))).state = RiskState.NORMAL := by
  constructor <;> decide

/-- C3 (counterexample): a break-even close (pnl = 0) does not reset the
consecutive-loss counter as claimed — with a 2-loss streak, `on_trade_closed(0, …)`
leaves the counter at 2, not 0. -/
theorem zero_pnl_close_keeps_streak :
    exState1.consec_losses = 2
    ∧ (onTradeClosed 0 10000 exState1).consec_losses = 2
    ∧ ¬((onTradeClosed 0 10000 exState1).consec_losses = 0) := by
  refine ⟨rfl, by decide, by decide⟩

end ConcreteEvalA

/-- C3 (amended): `on_trade_closed` increments the streak by exactly one on a
strictly negative pnl, resets it to zero on a strictly positive pnl, and
leaves it unchanged on a break-even (zero) pnl. -/
theorem onTradeClosed_consec_semantics (c : CState) (pnl balance : ℚ) :
    (pnl < 0 → (onTradeClosed pnl balance c).consec_losses = c.consec_losses + 1)
    ∧ (0 < pnl → (onTradeClosed pnl balance c).consec_losses = 0)
    ∧ (pnl = 0 → (onTradeClosed pnl balance c).consec_losses = c.consec_losses) := by
  simp only [onTradeClosed]
  refine ⟨fun h => ?_, fun h => ?_, fun h => ?_⟩
  · rw [if_pos h]
    split <;> rfl
  · have h1 : ¬pnl < 0 := not_lt.mpr h.le
    rw [if_neg h1, if_pos h]
    split <;> rfl
  · have h1 : ¬pnl < 0 := by rw [h]; exact lt_irrefl 0
    have h2 : ¬(0 : ℚ) < pnl := by rw [h]; exact lt_irrefl 0
    rw [if_neg h1, if_neg h2]
    split <;> rfl

/-- C3 witness: the three cases of `onTradeClosed_consec_semantics` at
concrete inputs (streak 2 → 3 on a loss, → 0 on a win, → 2 on break-even). -/
theorem onTradeClosed_consec_semantics_witness :
    ((-5 : ℚ) < 0 ∧ (onTradeClosed (-5) 10000 exState1).consec_losses
        = exState1.consec_losses + 1)
    ∧ ((0 : ℚ) < 5 ∧ (onTradeClosed 5 10000 exState1).consec_losses = 0)
    ∧ ((0 : ℚ) = 0 ∧ (onTradeClosed 0 10000 exState1).consec_losses
        = exState1.consec_losses) :=
  ⟨⟨by norm_num, (onTradeClosed_consec_semantics exState1 (-5) 10000).1 (by norm_num)⟩,
   ⟨by norm_num, (onTradeClosed_consec_semantics exState1 5 10000).2.1 (by norm_num)⟩,
   ⟨rfl, (onTradeClosed_consec_semantics exState1 0 10000).2.2 rfl⟩⟩

section ConcreteEvalB

set_option allowUnsafeReducibility true

attribute [local semireducible] Rat.mul Rat.add Rat.sub Rat.inv Rat.div

/-- C5 (counterexample): for balance 10000, risk 1%, 50-pip stop, pip value 10
per lot (and the source defaults min_lot 0.01, max_lot 100, lot_step 0.01)
the code returns 0.2 lots — risk $100 over $500 per lot — not the 0.02 the
claim states. -/
theorem lot_size_concrete_is_point_two :
    calculate_lot_size 10000 1 50 10 (1/100) 100 (1/100) = 1/5
    ∧ ¬(calculate_lot_size 10000 1 50 10 (1/100) 100 (1/100) = 1/50) :=
  ⟨by decide, by decide⟩

end ConcreteEvalB

/-- C5 (amended): with the source's default broker constraints (min_lot 0.01,
max_lot 100, lot_step 0.01) and a positive per-lot pip value,
`calculate_lot_size` equals the spec's formula — risk-dollars = balance ×
risk_pct/100, divided by (stop pips × per-lot value), floored to the lot step
and clamped to [min_lot, max_lot] — and returns 0 exactly when balance, risk
percent or stop distance is non-positive. (On the claim's concrete input the
common value is 0.2, not 0.02.) -/
theorem calculate_lot_size_spec (b r s p : ℚ) (hp : 0 < p) :
    calculate_lot_size b r s p (1/100) 100 (1/100)
      = specLotSize b r s p (1/100) 100 (1/100)
    ∧ (calculate_lot_size b r s p (1/100) 100 (1/100) = 0
        ↔ b ≤ 0 ∨ r ≤ 0 ∨ s ≤ 0) := by
  by_cases hdeg : b ≤ 0 ∨ r ≤ 0 ∨ s ≤ 0
  · constructor
    · simp only [calculate_lot_size, specLotSize]
      rw [if_pos (by tauto), if_pos hdeg]
    · simp only [calculate_lot_size]
      rw [if_pos (by tauto)]
      simp [hdeg]
  · push_neg at hdeg
    obtain ⟨hb, hr, hs⟩ := hdeg
    have hnd1 : ¬(s ≤ 0 ∨ b ≤ 0 ∨ r ≤ 0) := by push_neg; exact ⟨hs, hb, hr⟩
    have hnd2 : ¬(b ≤ 0 ∨ r ≤ 0 ∨ s ≤ 0) := by push_neg; exact ⟨hb, hr, hs⟩
    have hpos : 0 < b * r / 100 / (s * p) :=
      div_pos (div_pos (mul_pos hb hr) (by norm_num)) (mul_pos hs hp)
    have htr : pyTrunc (b * r / 100 / (s * p) / (1/100))
        = ⌊b * r / 100 / (s * p) / (1/100)⌋ := by
      unfold pyTrunc
      rw [if_pos (le_of_lt (div_pos hpos (by norm_num)))]
    have hX : max (1/100 : ℚ)
          (min 100 ((⌊b * r / 100 / (s * p) / (1/100)⌋ : ℚ) * (1/100)))
        = ((max 1 (min 10000 ⌊b * r / 100 / (s * p) / (1/100)⌋) : ℤ) : ℚ) / 100 := by
      push_cast [Int.cast_max, Int.cast_min]
      rw [← max_div_div_right (by norm_num : (0:ℚ) ≤ 100),
        ← min_div_div_right (by norm_num : (0:ℚ) ≤ 100)]
      norm_num
      ring_nf
    have hres : calculate_lot_size b r s p (1/100) 100 (1/100)
        = ((max 1 (min 10000 ⌊b * r / 100 / (s * p) / (1/100)⌋) : ℤ) : ℚ) / 100 := by
      simp only [calculate_lot_size]
      rw [if_neg hnd1, if_pos (by norm_num : (0:ℚ) < 1/100), htr, hX]
      exact pyRound_intMul (max 1 (min 10000 ⌊b * r / 100 / (s * p) / (1/100)⌋)) 2 _
        (by norm_num)
    have hspec : specLotSize b r s p (1/100) 100 (1/100)
        = ((max 1 (min 10000 ⌊b * r / 100 / (s * p) / (1/100)⌋) : ℤ) : ℚ) / 100 := by
      simp only [specLotSize]
      rw [if_neg hnd2]
      exact hX
    refine ⟨hres.trans hspec.symm, ?_⟩
    rw [hres]
    constructor
    · intro h0
      have h1 : (1 : ℤ) ≤ max 1 (min 10000 ⌊b * r / 100 / (s * p) / (1/100)⌋) :=
        le_max_left _ _
      have h2 : (1 : ℚ) ≤ ((max 1 (min 10000 ⌊b * r / 100 / (s * p) / (1/100)⌋) : ℤ) : ℚ) := by
        exact_mod_cast h1
      exfalso
      linarith [h0, h2]
    · intro hcon
      rcases hcon with h | h | h <;> linarith

/-- C5 witness: `calculate_lot_size_spec` at the claim's concrete input
(balance 10000, risk 1%, 50 pips, pip value 10). -/
theorem calculate_lot_size_spec_witness :
    (0 : ℚ) < 10
    ∧ calculate_lot_size 10000 1 50 10 (1/100) 100 (1/100)
        = specLotSize 10000 1 50 10 (1/100) 100 (1/100)
    ∧ (calculate_lot_size 10000 1 50 10 (1/100) 100 (1/100) = 0
        ↔ (10000 : ℚ) ≤ 0 ∨ (1 : ℚ) ≤ 0 ∨ (50 : ℚ) ≤ 0) :=
  ⟨by norm_num, (calculate_lot_size_spec 10000 1 50 10 (by norm_num)).1,
   (calculate_lot_size_spec 10000 1 50 10 (by norm_num)).2⟩

section ConcreteEvalC

set_option allowUnsafeReducibility true

attribute [local semireducible] Rat.mul Rat.add Rat.sub Rat.inv Rat.div

/-- C7 (counterexample): in WEEKLY_PAUSE the code returns the fixed 0.25% and
ignores the drawdown-tier cap. With reduced risk 0.5% and tier-2 factor 0.4,
a 10% peak drawdown caps risk at 0.2% < 0.25%, so the claimed minimum of the
two mechanisms is 0.2% — but `get_risk_percent` returns 0.25%. -/
theorem weekly_pause_ignores_dd_cap :
    getRiskPercent exCfg exStateW = 1/4
    ∧ specMinRisk exCfg exStateW = 1/5
    ∧ getRiskPercent exCfg exStateW ≠ specMinRisk exCfg exStateW := by
  refine ⟨by decide, by decide, by decide⟩

end ConcreteEvalC

/-- C7 (amended): outside WEEKLY_PAUSE, `get_risk_percent` equals the minimum
of the state-table percentage and the drawdown-tier cap (the claim as stated);
in WEEKLY_PAUSE it returns the fixed minimal 0.25% regardless of the cap. -/
theorem getRiskPercent_spec (cc : CCfg) (c : CState)
    (hred : 0 ≤ cc.risk_pct_reduced) (hf : 0 ≤ cc.dd_tier2_factor) :
    (c.state ≠ RiskState.WEEKLY_PAUSE → getRiskPercent cc c = specMinRisk cc c)
    ∧ (c.state = RiskState.WEEKLY_PAUSE → getRiskPercent cc c = 1/4) := by
  constructor
  · intro hne
    unfold getRiskPercent specMinRisk specDdCap specStateRisk
    cases hc : c.state with
    | NORMAL => simp [hc]; split_ifs <;> simp
    | REDUCED => simp [hc]; split_ifs <;> simp
    | DAILY_PAUSE => simp [hc]; split_ifs <;> simp
    | WEEKLY_PAUSE => exact absurd hc hne
    | KILL_SWITCH =>
        simp [hc]
        split_ifs with hg h2 h3
        · exact (min_eq_left (mul_nonneg hred hf)).symm
        · exact (min_eq_left hred).symm
        · rfl
        · rfl
  · intro he
    unfold getRiskPercent
    simp [he]

/-- C7 witness: `getRiskPercent_spec` at `exCfg` — a NORMAL state (no
drawdown) matches the spec minimum, and the WEEKLY_PAUSE state returns 0.25. -/
theorem getRiskPercent_spec_witness :
    (exState1.state ≠ RiskState.WEEKLY_PAUSE
      ∧ getRiskPercent exCfg exState1 = specMinRisk exCfg exState1)
    ∧ (exStateW.state = RiskState.WEEKLY_PAUSE ∧ getRiskPercent exCfg exStateW = 1/4) :=
  ⟨⟨by decide,
    (getRiskPercent_spec exCfg exState1 (by norm_num [exCfg]) (by norm_num [exCfg])).1
      (by decide)⟩,
   ⟨rfl,
    (getRiskPercent_spec exCfg exStateW (by norm_num [exCfg]) (by norm_num [exCfg])).2 rfl⟩⟩

/-- C9: in the simulator's exit check the stop is evaluated before the target:
on any bar breaching both levels of an open position (long: low ≤ stop and
target ≤ high; short symmetric), the position closes at the stop price with a
stop-family tag (SL/BE/TRAIL), never at the target. -/
theorem stop_checked_before_target (pos : Position) (bar : BarOHLC)
    (h : (0 < pos.direction ∧ bar.low ≤ pos.sl ∧ pos.tp ≤ bar.high)
       ∨ (pos.direction < 0 ∧ pos.sl ≤ bar.high ∧ bar.low ≤ pos.tp)) :
    ∃ r : ExitReason, exitCheck pos bar = some (pos.sl, r) ∧ r ≠ ExitReason.tpHit := by
  rcases h with ⟨hd, hsl, -⟩ | ⟨hd, hsl, -⟩
  · refine ⟨if pos.be_activated then
        (if |pos.sl - pos.entry| < pipSizeQ * 3 then ExitReason.beHit
         else ExitReason.trailHit)
      else ExitReason.slHit, ?_, ?_⟩
    · unfold exitCheck
      rw [if_pos hd, if_pos hsl]
    · split_ifs <;> simp
  · refine ⟨if pos.be_activated then
        (if |pos.sl - pos.entry| < pipSizeQ * 3 then ExitReason.beHit
         else ExitReason.trailHit)
      else ExitReason.slHit, ?_, ?_⟩
    · unfold exitCheck
      rw [if_neg (by omega : ¬(0 < pos.direction)), if_pos hsl]
    · split_ifs <;> simp

section ConcreteEvalD

set_option allowUnsafeReducibility true

attribute [local semireducible] Rat.mul Rat.add Rat.sub Rat.inv Rat.div

/-- C9 witness: `stop_checked_before_target` on the spec's example — long,
stop 1.0980, target 1.1100, bar low 1.0975 / high 1.1120 — closes at the
stop price 1.0980. -/
theorem stop_checked_before_target_witness :
    (0 < exPos9.direction ∧ exBar9.low ≤ exPos9.sl ∧ exPos9.tp ≤ exBar9.high)
    ∧ exPos9.sl = 1098/1000
    ∧ ∃ r : ExitReason, exitCheck exPos9 exBar9 = some (exPos9.sl, r)
        ∧ r ≠ ExitReason.tpHit :=
  ⟨by decide, rfl, stop_checked_before_target exPos9 exBar9 (Or.inl (by decide))⟩

end ConcreteEvalD

theorem pyRound5_is_mult (x : ℚ) : ∃ k : ℤ, pyRound x 5 = (k : ℚ) / 100000 :=
  ⟨rndHalfEven (x * 10 ^ 5), by unfold pyRound; norm_num⟩

theorem le_pyRound5_of_lt {a x : ℚ} {m : ℤ} (hm : a = (m : ℚ) / 100000)
    (h : a < x) : a ≤ pyRound x 5 := by
  have h1 : (m : ℚ) / 10 ^ 5 ≤ x := by
    rw [show ((10:ℚ) ^ 5) = 100000 by norm_num, ← hm]
    exact h.le
  have h2 := le_pyRound x 5 h1
  rw [hm, show ((100000:ℚ)) = 10 ^ 5 by norm_num]
  exact h2

theorem pyRound5_le_of_lt {a x : ℚ} {m : ℤ} (hm : a = (m : ℚ) / 100000)
    (h : x < a) : pyRound x 5 ≤ a := by
  have h1 : x ≤ (m : ℚ) / 10 ^ 5 := by
    rw [show ((10:ℚ) ^ 5) = 100000 by norm_num, ← hm]
    exact h.le
  have h2 := pyRound_le x 5 h1
  rw [hm, show ((100000:ℚ)) = 10 ^ 5 by norm_num]
  exact h2

theorem stepBreakeven_sl_le {tm : TMCfg} {bar : BarOHLC} {pos : Position}
    {m : ℤ} (hm : pos.sl = (m : ℚ) / 100000) (hd : 0 < pos.direction) :
    pos.sl ≤ (stepBreakeven tm bar pos).sl := by
  simp only [stepBreakeven]
  split_ifs <;>
    first
      | exact le_pyRound5_of_lt hm (by assumption)
      | (exfalso; omega)
      | exact le_refl _

theorem stepBreakeven_sl_ge {tm : TMCfg} {bar : BarOHLC} {pos : Position}
    {m : ℤ} (hm : pos.sl = (m : ℚ) / 100000) (hd : pos.direction < 0) :
    (stepBreakeven tm bar pos).sl ≤ pos.sl := by
  simp only [stepBreakeven]
  split_ifs <;>
    first
      | exact pyRound5_le_of_lt hm (by assumption)
      | (exfalso; omega)
      | exact le_refl _

theorem stepTrailing_sl_le {tm : TMCfg} {bar : BarOHLC} {pos : Position}
    {m : ℤ} (hm : pos.sl = (m : ℚ) / 100000) (hd : 0 < pos.direction) :
    pos.sl ≤ (stepTrailing tm bar pos).sl := by
  simp only [stepTrailing]
  split_ifs <;>
    first
      | exact le_pyRound5_of_lt hm (And.left (by assumption))
      | (exfalso; omega)
      | exact le_refl _

theorem stepTrailing_sl_ge {tm : TMCfg} {bar : BarOHLC} {pos : Position}
    {m : ℤ} (hm : pos.sl = (m : ℚ) / 100000) (hd : pos.direction < 0) :
    (stepTrailing tm bar pos).sl ≤ pos.sl := by
  simp only [stepTrailing]
  split_ifs <;>
    first
      | exact pyRound5_le_of_lt hm (And.left (by assumption))
      | (exfalso; omega)
      | exact le_refl _

theorem manageBe_sl_le {tm : TMCfg} {r : ℚ} {pos : Position}
    {m : ℤ} (hm : pos.sl = (m : ℚ) / 100000) (hd : 0 < pos.direction) :
    pos.sl ≤ (manageBe tm r pos).sl := by
  simp only [manageBe]
  split_ifs <;>
    first
      | exact le_pyRound5_of_lt hm (by assumption)
      | (exfalso; omega)
      | exact le_refl _

theorem manageBe_sl_ge {tm : TMCfg} {r : ℚ} {pos : Position}
    {m : ℤ} (hm : pos.sl = (m : ℚ) / 100000) (hd : pos.direction < 0) :
    (manageBe tm r pos).sl ≤ pos.sl := by
  simp only [manageBe]
  split_ifs <;>
    first
      | exact pyRound5_le_of_lt hm (by assumption)
      | (exfalso; omega)
      | exact le_refl _

theorem manageTrail_sl_le {tm : TMCfg} {current atr r : ℚ} {pos : Position}
    {m : ℤ} (hm : pos.sl = (m : ℚ) / 100000) (hd : 0 < pos.direction) :
    pos.sl ≤ (manageTrail tm current atr r pos).sl := by
  simp only [manageTrail]
  split_ifs <;>
    first
      | exact le_pyRound5_of_lt hm (And.left (by assumption))
      | (exfalso; omega)
      | exact le_refl _

theorem manageTrail_sl_ge {tm : TMCfg} {current atr r : ℚ} {pos : Position}
    {m : ℤ} (hm : pos.sl = (m : ℚ) / 100000) (hd : pos.direction < 0) :
    (manageTrail tm current atr r pos).sl ≤ pos.sl := by
  simp only [manageTrail]
  split_ifs <;>
    first
      | exact pyRound5_le_of_lt hm (And.left (by assumption))
      | (exfalso; omega)
      | exact le_refl _

theorem manageBe_direction (tm : TMCfg) (r : ℚ) (pos : Position) :
    (manageBe tm r pos).direction = pos.direction := by
  simp only [manageBe]
  split_ifs <;> rfl

theorem manageBe_sl_mult {tm : TMCfg} {r : ℚ} {pos : Position}
    {m : ℤ} (hm : pos.sl = (m : ℚ) / 100000) :
    ∃ k : ℤ, (manageBe tm r pos).sl = (k : ℚ) / 100000 := by
  simp only [manageBe]
  split_ifs <;> first | exact ⟨m, hm⟩ | exact pyRound5_is_mult _

section ConcreteEvalE

set_option allowUnsafeReducibility true

attribute [local semireducible] Rat.mul Rat.add Rat.sub Rat.inv Rat.div

/-- C6 (counterexample): breakeven activates and the ATR trail lifts the stop
of a long position to 1.1035 on the first bar; on the next bar the partial
close fires and unconditionally re-bases the stop to 1.1001 — a stop-loss
modification after breakeven that moves the stop back toward entry, against
the claimed monotonicity. -/
theorem partial_close_moves_stop_back :
    (processPosBar tmC6 barC6a 10 0 posC6).pos = some posC6a
    ∧ posC6a.be_activated = true
    ∧ (processPosBar tmC6 barC6b 10 0 posC6a).pos = some posC6b
    ∧ posC6b.sl < posC6a.sl :=
  ⟨by decide, rfl, by decide, by decide⟩

end ConcreteEvalE

theorem manageCompose_sl_le {tm : TMCfg} {pos : Position} {m : ℤ}
    (hm : pos.sl = (m : ℚ) / 100000) (hd : 0 < pos.direction)
    (current atr r : ℚ) :
    pos.sl ≤ (manageTrail tm current atr r (manageBe tm r pos)).sl := by
  obtain ⟨k, hk⟩ := @manageBe_sl_mult tm r _ _ hm
  calc pos.sl ≤ (manageBe tm r pos).sl := manageBe_sl_le hm hd
    _ ≤ (manageTrail tm current atr r (manageBe tm r pos)).sl :=
        manageTrail_sl_le hk (by rw [manageBe_direction]; exact hd)

theorem manageCompose_sl_ge {tm : TMCfg} {pos : Position} {m : ℤ}
    (hm : pos.sl = (m : ℚ) / 100000) (hd : pos.direction < 0)
    (current atr r : ℚ) :
    (manageTrail tm current atr r (manageBe tm r pos)).sl ≤ pos.sl := by
  obtain ⟨k, hk⟩ := @manageBe_sl_mult tm r _ _ hm
  calc (manageTrail tm current atr r (manageBe tm r pos)).sl
      ≤ (manageBe tm r pos).sl :=
        manageTrail_sl_ge hk (by rw [manageBe_direction]; exact hd)
    _ ≤ pos.sl := manageBe_sl_ge hm hd

/-- C6 (amended): the breakeven and trailing modifications — in the simulator
(`check_sl_tp`) and in the realtime manager (`manage_open_positions`) — only
ever move a position's stop in the risk-reducing direction (never lower for a
long, never higher for a short), for any stop already on the 5-decimal price
grid; the simulator's partial-close block is the exception the counterexample
exhibits. -/
theorem stop_modifications_monotone (tm : TMCfg) (bar : BarOHLC)
    (bid ask atr : ℚ) (pos : Position) (m : ℤ) (hm : pos.sl = (m : ℚ) / 100000) :
    (0 < pos.direction →
      pos.sl ≤ (stepBreakeven tm bar pos).sl
      ∧ pos.sl ≤ (stepTrailing tm bar pos).sl
      ∧ pos.sl ≤ (managePos tm bid ask atr pos).sl)
    ∧ (pos.direction < 0 →
      (stepBreakeven tm bar pos).sl ≤ pos.sl
      ∧ (stepTrailing tm bar pos).sl ≤ pos.sl
      ∧ (managePos tm bid ask atr pos).sl ≤ pos.sl) := by
  constructor
  · intro hd
    refine ⟨stepBreakeven_sl_le hm hd, stepTrailing_sl_le hm hd, ?_⟩
    simp only [managePos]
    rcases le_or_lt pos.sl_pips 0 with h1 | h1
    · rw [if_pos h1]
    · rw [if_neg (not_le.mpr h1)]
      rcases le_or_lt (if 0 < pos.direction then bid else ask) 0 with h2 | h2
      · rw [if_pos h2]
      · rw [if_neg (not_le.mpr h2)]
        exact manageCompose_sl_le hm hd _ atr _
  · intro hd
    refine ⟨stepBreakeven_sl_ge hm hd, stepTrailing_sl_ge hm hd, ?_⟩
    simp only [managePos]
    rcases le_or_lt pos.sl_pips 0 with h1 | h1
    · rw [if_pos h1]
    · rw [if_neg (not_le.mpr h1)]
      rcases le_or_lt (if 0 < pos.direction then bid else ask) 0 with h2 | h2
      · rw [if_pos h2]
      · rw [if_neg (not_le.mpr h2)]
        exact manageCompose_sl_ge hm hd _ atr _

/-- C6 witness: `stop_modifications_monotone` on the long position `posC6`
(stop 1.0950 on the 5-decimal grid): the simulator blocks and the realtime
manager can only raise its stop on `barC6a`. -/
theorem stop_modifications_monotone_witness :
    posC6.sl = ((109500 : ℤ) : ℚ) / 100000
    ∧ (0 < posC6.direction)
    ∧ posC6.sl ≤ (stepBreakeven tmC6 barC6a posC6).sl
    ∧ posC6.sl ≤ (stepTrailing tmC6 barC6a posC6).sl
    ∧ posC6.sl ≤ (managePos tmC6 (1104/1000) (11045/10000) (1/1000) posC6).sl :=
  ⟨by norm_num [posC6], by decide,
   ((stop_modifications_monotone tmC6 barC6a (1104/1000) (11045/10000) (1/1000) posC6
      109500 (by norm_num [posC6])).1 (by decide)).1,
   ((stop_modifications_monotone tmC6 barC6a (1104/1000) (11045/10000) (1/1000) posC6
      109500 (by norm_num [posC6])).1 (by decide)).2.1,
   ((stop_modifications_monotone tmC6 barC6a (1104/1000) (11045/10000) (1/1000) posC6
      109500 (by norm_num [posC6])).1 (by decide)).2.2⟩

/-- C10: whenever the calendar day changes — `advance_time` with a bar day, or
the wall-clock check `_check_new_day_realtime` — the engine zeroes
trades_today, today_closed_pnl and consec_losses, stores the passed balance as
prev_eod_balance, adopts the new day, and resets the state to NORMAL unless it
is KILL_SWITCH; in particular no consecutive-loss streak survives a day
boundary. -/
theorem dayRollover_resets (c : CState) (barDay wallDay : ℤ) (balA balB : ℚ)
    (hb : barDay ≠ c.current_day) (hw : wallDay ≠ c.current_day) :
    (advanceTime barDay balA c).trades_today = 0
    ∧ (advanceTime barDay balA c).today_closed_pnl = 0
    ∧ (advanceTime barDay balA c).consec_losses = 0
    ∧ (advanceTime barDay balA c).prev_eod_balance = balA
    ∧ (advanceTime barDay balA c).current_day = barDay
    ∧ (advanceTime barDay balA c).state
        = (if c.state = RiskState.KILL_SWITCH then RiskState.KILL_SWITCH
           else RiskState.NORMAL)
    ∧ (checkNewDayRealtime wallDay balB c).trades_today = 0
    ∧ (checkNewDayRealtime wallDay balB c).today_closed_pnl = 0
    ∧ (checkNewDayRealtime wallDay balB c).consec_losses = 0
    ∧ (checkNewDayRealtime wallDay balB c).prev_eod_balance = balB
    ∧ (checkNewDayRealtime wallDay balB c).current_day = wallDay
    ∧ (checkNewDayRealtime wallDay balB c).state
        = (if c.state = RiskState.KILL_SWITCH then RiskState.KILL_SWITCH
           else RiskState.NORMAL) := by
  unfold advanceTime checkNewDayRealtime
  rw [if_pos hb, if_pos hw]
  refine ⟨rfl, rfl, rfl, rfl, rfl, ?_, rfl, rfl, rfl, rfl, rfl, ?_⟩ <;>
    (by_cases hk : c.state = RiskState.KILL_SWITCH <;> simp [hk])

/-- C10 witness: `dayRollover_resets` on the day-100 state with a 2-loss
streak, advancing to day 101 (bar time) and day 102 (wall clock). -/
theorem dayRollover_resets_witness :
    ((101 : ℤ) ≠ exState1.current_day) ∧ ((102 : ℤ) ≠ exState1.current_day)
    ∧ (advanceTime 101 9000 exState1).consec_losses = 0
    ∧ (advanceTime 101 9000 exState1).prev_eod_balance = 9000
    ∧ (advanceTime 101 9000 exState1).state
        = (if exState1.state = RiskState.KILL_SWITCH then RiskState.KILL_SWITCH
           else RiskState.NORMAL)
    ∧ (checkNewDayRealtime 102 8000 exState1).consec_losses = 0
    ∧ (checkNewDayRealtime 102 8000 exState1).current_day = 102 :=
  ⟨by decide, by decide,
   (dayRollover_resets exState1 101 102 9000 8000 (by decide) (by decide)).2.2.1,
   (dayRollover_resets exState1 101 102 9000 8000 (by decide) (by decide)).2.2.2.1,
   (dayRollover_resets exState1 101 102 9000 8000 (by decide) (by decide)).2.2.2.2.2.1,
   (dayRollover_resets exState1 101 102 9000 8000 (by decide) (by decide)).2.2.2.2.2.2.2.2.1,
   (dayRollover_resets exState1 101 102 9000 8000 (by decide) (by decide)).2.2.2.2.2.2.2.2.2.2.1⟩

theorem pyRound5_lt {x y : ℚ} (h : x + 1/10000 ≤ y) :
    pyRound x 5 < pyRound y 5 := by
  have e5 : ((10:ℚ)) ^ 5 = 100000 := by norm_num
  have hx := rndHalfEven_sub_le (x * 10 ^ 5)
  have hy := rndHalfEven_sub_le (y * 10 ^ 5)
  rw [abs_sub_le_iff, e5] at hx hy
  have h10 : x * 100000 + 10 ≤ y * 100000 := by linarith
  have hZ : (rndHalfEven (x * 100000) : ℚ) < (rndHalfEven (y * 100000) : ℚ) := by
    linarith [hx.2, hy.1]
  unfold pyRound
  rw [e5, div_lt_div_iff (by norm_num : (0:ℚ) < 100000) (by norm_num : (0:ℚ) < 100000)]
  nlinarith [hZ]

theorem priceToPips_of_nonneg {d : ℚ} (hd : 0 ≤ d) :
    priceToPips d = d * 10000 := by
  unfold priceToPips pipSizeQ
  rw [abs_of_nonneg hd, div_eq_mul_inv]
  norm_num

theorem pyRound1_band {p lo : ℚ} {m : ℤ} (hlo : lo = (m : ℚ))
    (h1 : lo ≤ p) (h2 : p ≤ 80) : lo ≤ pyRound p 1 ∧ pyRound p 1 ≤ 80 := by
  have e : ((10 * m : ℤ) : ℚ) / 10 ^ 1 = (m : ℚ) := by
    push_cast
    field_simp
  have e80 : ((800 : ℤ) : ℚ) / 10 ^ 1 = 80 := by norm_num
  constructor
  · rw [hlo]
    calc (m : ℚ) = ((10 * m : ℤ) : ℚ) / 10 ^ 1 := e.symm
      _ ≤ pyRound p 1 := le_pyRound p 1 (by rw [e, ← hlo]; exact h1)
  · calc pyRound p 1 ≤ ((800 : ℤ) : ℚ) / 10 ^ 1 := pyRound_le p 1 (by rw [e80]; exact h2)
    _ = 80 := e80

theorem mk_buy_ok {minPips : ℚ} {m : ℤ} (hmin : minPips = (m : ℚ))
    (hmin1 : 1 ≤ minPips) {entry sl tp slDist rr : ℚ} (hrr : 1 ≤ rr)
    (hd : 0 ≤ slDist) (hsl : sl = entry - slDist) (htp : tp = entry + slDist * rr)
    (hband : minPips ≤ priceToPips slDist ∧ priceToPips slDist ≤ 80)
    (tpPips : ℚ) (reason : String) :
    SignalOk minPips (mkSignal 1 entry sl tp (priceToPips slDist) tpPips reason) := by
  have hpp : priceToPips slDist = slDist * 10000 := priceToPips_of_nonneg hd
  have hD : 1/10000 ≤ slDist := by
    have := hband.1
    rw [hpp] at this
    linarith
  have hDr : 1/10000 ≤ slDist * rr := by nlinarith
  refine ⟨Or.inl ⟨rfl, ?_, ?_⟩, ?_, ?_⟩
  · show pyRound sl 5 < pyRound entry 5
    apply pyRound5_lt
    rw [hsl]
    linarith
  · show pyRound entry 5 < pyRound tp 5
    apply pyRound5_lt
    rw [htp]
    linarith
  · exact (pyRound1_band hmin hband.1 hband.2).1
  · exact (pyRound1_band hmin hband.1 hband.2).2

theorem mk_sell_ok {minPips : ℚ} {m : ℤ} (hmin : minPips = (m : ℚ))
    (hmin1 : 1 ≤ minPips) {entry sl tp slDist rr : ℚ} (hrr : 1 ≤ rr)
    (hd : 0 ≤ slDist) (hsl : sl = entry + slDist) (htp : tp = entry - slDist * rr)
    (hband : minPips ≤ priceToPips slDist ∧ priceToPips slDist ≤ 80)
    (tpPips : ℚ) (reason : String) :
    SignalOk minPips (mkSignal (-1) entry sl tp (priceToPips slDist) tpPips reason) := by
  have hpp : priceToPips slDist = slDist * 10000 := priceToPips_of_nonneg hd
  have hD : 1/10000 ≤ slDist := by
    have := hband.1
    rw [hpp] at this
    linarith
  have hDr : 1/10000 ≤ slDist * rr := by nlinarith
  refine ⟨Or.inr ⟨rfl, ?_, ?_⟩, ?_, ?_⟩
  · show pyRound tp 5 < pyRound entry 5
    apply pyRound5_lt
    rw [htp]
    linarith
  · show pyRound entry 5 < pyRound sl 5
    apply pyRound5_lt
    rw [hsl]
    linarith
  · exact (pyRound1_band hmin hband.1 hband.2).1
  · exact (pyRound1_band hmin hband.1 hband.2).2

theorem foldl_min_le (t : List SBar) (a : ℚ) :
    t.foldl (fun m x => min m x.low) a ≤ a := by
  induction t generalizing a with
  | nil => exact le_refl a
  | cons x t ih => exact le_trans (ih (min a x.low)) (min_le_left a x.low)

theorem foldl_min_le_mem : ∀ (t : List SBar) (a : ℚ) {b : SBar}, b ∈ t →
    t.foldl (fun m x => min m x.low) a ≤ b.low := by
  intro t
  induction t with
  | nil => intro a b hb; cases hb
  | cons x t ih =>
      intro a b hb
      rcases List.mem_cons.mp hb with rfl | hb'
      · exact le_trans (foldl_min_le t (min a b.low)) (min_le_right a b.low)
      · exact ih (min a x.low) hb'

theorem le_foldl_max (t : List SBar) (a : ℚ) :
    a ≤ t.foldl (fun m x => max m x.high) a := by
  induction t generalizing a with
  | nil => exact le_refl a
  | cons x t ih => exact le_trans (le_max_left a x.high) (ih (max a x.high))

theorem le_foldl_max_mem : ∀ (t : List SBar) (a : ℚ) {b : SBar}, b ∈ t →
    b.high ≤ t.foldl (fun m x => max m x.high) a := by
  intro t
  induction t with
  | nil => intro a b hb; cases hb
  | cons x t ih =>
      intro a b hb
      rcases List.mem_cons.mp hb with rfl | hb'
      · exact le_trans (le_max_right a b.high) (le_foldl_max t (max a b.high))
      · exact ih (max a x.high) hb'

theorem minLow_le_of_mem {l : List SBar} {b : SBar} (hb : b ∈ l) :
    minLow l ≤ b.low := by
  cases l with
  | nil => cases hb
  | cons x t =>
      rcases List.mem_cons.mp hb with rfl | hb'
      · exact foldl_min_le t b.low
      · exact foldl_min_le_mem t x.low hb'

theorem maxHigh_le_of_mem {l : List SBar} {b : SBar} (hb : b ∈ l) :
    b.high ≤ maxHigh l := by
  cases l with
  | nil => cases hb
  | cons x t =>
      rcases List.mem_cons.mp hb with rfl | hb'
      · exact le_foldl_max t b.high
      · exact le_foldl_max_mem t x.high hb'

theorem minLow_le_maxHigh {l : List SBar}
    (hwf : ∀ b ∈ l, b.low ≤ b.high) : minLow l ≤ maxHigh l := by
  cases l with
  | nil => exact le_refl 0
  | cons x t =>
      calc minLow (x :: t) ≤ x.low := foldl_min_le t x.low
        _ ≤ x.high := hwf x (List.mem_cons_self x t)
        _ ≤ maxHigh (x :: t) := le_foldl_max t x.high

theorem getFromEnd_mem {l : List SBar} {k : ℕ} {b : SBar}
    (h : getFromEnd l k = some b) : b ∈ l := by
  unfold getFromEnd at h
  split_ifs at h
  exact List.get?_mem h

theorem getNearestObSl_buy_cases (fr : Frame) (idx : ℕ) (entry mx : ℚ) :
    getNearestObSl fr idx 1 entry mx = 0
    ∨ getNearestObSl fr idx 1 entry mx < entry := by
  unfold getNearestObSl
  by_cases hs : fr.smcCols = true
  · rw [if_pos ⟨rfl, hs⟩]
    rcases hob : (fr.bars.get? idx).bind SBar.ob_bull_bot with _ | ob
    · exact Or.inl rfl
    · dsimp only
      split_ifs with h3
      · exact Or.inr h3.1
      · exact Or.inl rfl
  · rw [if_neg (fun hc => hs hc.2), if_neg (fun hc => hs hc.2)]
    exact Or.inl rfl

theorem getNearestObSl_sell_cases (fr : Frame) (idx : ℕ) (entry mx : ℚ) :
    getNearestObSl fr idx (-1) entry mx = 0
    ∨ entry < getNearestObSl fr idx (-1) entry mx := by
  unfold getNearestObSl
  rw [if_neg (fun hc => absurd hc.1 (by decide))]
  by_cases hs : fr.smcCols = true
  · rw [if_pos ⟨rfl, hs⟩]
    rcases hob : (fr.bars.get? idx).bind SBar.ob_bear_top with _ | ob
    · exact Or.inl rfl
    · dsimp only
      split_ifs with h3
      · exact Or.inr h3.1
      · exact Or.inl rfl
  · rw [if_neg (fun hc => hs hc.2)]
    exact Or.inl rfl

theorem buyRetestAttempt_ok {s : StratCfg} {b0 : SBar}
    {close atr ema200 buffer bodyRatio asianHigh : ℚ} {bbf : Bool} {sig : Signal}
    (hs : cfgSane s) (hlow : b0.low ≤ close) (hbuf : 0 ≤ buffer)
    (h : buyRetestAttempt s b0 close atr ema200 buffer bodyRatio asianHigh bbf 0
          = some sig) :
    SignalOk s.min_sl_pips sig := by
  obtain ⟨m, hm⟩ := hs.2.2.2.2
  have h00 : (if (0:ℚ) < 0 then (0:ℚ) else close) = close := if_neg (lt_irrefl 0)
  simp only [buyRetestAttempt, h00] at h
  split_ifs at h with h1 h2 h3 h4 h5
  obtain rfl := Option.some.inj h
  exact mk_buy_ok hm hs.2.1 hs.1 (by linarith) (by ring) rfl
    ⟨h5.1, le_trans h5.2 (by norm_num)⟩ _ _

theorem sellRetestAttempt_ok {s : StratCfg} {b0 : SBar}
    {close atr ema200 buffer bodyRatio asianLow : ℚ} {sbf : Bool} {sig : Signal}
    (hs : cfgSane s) (hhigh : close ≤ b0.high) (hbuf : 0 ≤ buffer)
    (h : sellRetestAttempt s b0 close atr ema200 buffer bodyRatio asianLow sbf 0
          = some sig) :
    SignalOk s.min_sl_pips sig := by
  obtain ⟨m, hm⟩ := hs.2.2.2.2
  have h00 : (if (0:ℚ) < 0 then (0:ℚ) else close) = close := if_neg (lt_irrefl 0)
  simp only [sellRetestAttempt, h00] at h
  split_ifs at h with h1 h2 h3 h4 h5
  obtain rfl := Option.some.inj h
  exact mk_sell_ok hm hs.2.1 hs.1 (by linarith) (by ring) rfl
    ⟨h5.1, le_trans h5.2 (by norm_num)⟩ _ _

theorem rawBuyAttempt_ok {s : StratCfg} {b0 : SBar}
    {close ema200 buffer bodyRatio asianHigh asianLow : ℚ} {bbf : Bool} {sig : Signal}
    (hs : cfgSane s) (hal : asianLow ≤ asianHigh) (hbuf : 0 ≤ buffer)
    (h : rawBuyAttempt s b0 close ema200 buffer bodyRatio asianHigh asianLow bbf 0
          = some sig) :
    SignalOk s.min_sl_pips sig := by
  obtain ⟨m, hm⟩ := hs.2.2.2.2
  have h00 : (if (0:ℚ) < 0 then (0:ℚ) else close) = close := if_neg (lt_irrefl 0)
  simp only [rawBuyAttempt, h00] at h
  split_ifs at h with h1 h2 h3 h4
  obtain rfl := Option.some.inj h
  exact mk_buy_ok hm hs.2.1 hs.1 (by linarith [hal, h1.1]) (by ring) rfl h4 _ _

theorem rawSellAttempt_ok {s : StratCfg} {b0 : SBar}
    {close ema200 buffer bodyRatio asianHigh asianLow : ℚ} {sbf : Bool} {sig : Signal}
    (hs : cfgSane s) (hal : asianLow ≤ asianHigh) (hbuf : 0 ≤ buffer)
    (h : rawSellAttempt s b0 close ema200 buffer bodyRatio asianHigh asianLow sbf 0
          = some sig) :
    SignalOk s.min_sl_pips sig := by
  obtain ⟨m, hm⟩ := hs.2.2.2.2
  have h00 : (if (0:ℚ) < 0 then (0:ℚ) else close) = close := if_neg (lt_irrefl 0)
  simp only [rawSellAttempt, h00] at h
  split_ifs at h with h1 h2 h3 h4
  obtain rfl := Option.some.inj h
  exact mk_sell_ok hm hs.2.1 hs.1 (by linarith [hal, h1.1]) (by ring) rfl h4 _ _

theorem orElse_some {a : Option Signal} {f : Unit → Option Signal} {x : Signal}
    (h : a.orElse f = some x) : a = some x ∨ f () = some x := by
  rcases a with _ | y
  · exact Or.inr h
  · exact Or.inl h

theorem chain2_some {a b : Option (Option Signal)} {sig : Signal}
    (h : chain2 a b = some sig) :
    a = some (some sig) ∨ b = some (some sig) := by
  rcases a with _ | r
  · rcases b with _ | r
    · exact Option.noConfusion h
    · exact Or.inr (congrArg some h)
  · exact Or.inl (congrArg some h)

theorem map_some_eq {p : Option Signal} {sig : Signal}
    (h : Option.map some p = some (some sig)) : p = some sig := by
  rcases p with _ | x
  · exact Option.noConfusion h
  · exact Option.some.inj h

set_option maxHeartbeats 4000000 in
theorem smcBuySection_ok {fr : Frame} {s : StratCfg} {b0 : SBar}
    {close ema200 buffer bodyRatio asianHigh asianLow : ℚ} {sig : Signal}
    (hs : cfgSane s) (hal : asianLow ≤ asianHigh) (hbuf : 0 ≤ buffer)
    (h : smcBuySection fr s b0 close ema200 buffer bodyRatio asianHigh asianLow 0
          = some (some sig)) :
    SignalOk s.min_sl_pips sig := by
  obtain ⟨m, hm⟩ := hs.2.2.2.2
  have hrr23 : 1 ≤ s.rr_ratio * (23/20) := by linarith [hs.1]
  have hob := getNearestObSl_buy_cases fr (fr.bars.length - 1) close 50
  have h00 : (if (0:ℚ) < 0 then (0:ℚ) else close) = close := if_neg (lt_irrefl 0)
  simp only [smcBuySection, h00] at h
  generalize hG : getNearestObSl fr (fr.bars.length - 1) 1 close 50 = g at h
  rw [hG] at hob
  generalize hasRecentFvg fr (fr.bars.length - 1) 1 s.smc_fvg_lookback = fv at h
  generalize hasRecentLiqSweep fr (fr.bars.length - 1) 1 s.smc_liq_lookback = sw at h
  split_ifs at h with h1
  all_goals
    first
      | exact Option.noConfusion (Option.some.inj h)
      | (obtain rfl := Option.some.inj (Option.some.inj h)
         exact mk_buy_ok hm hs.2.1 (by first | exact hs.1 | exact hrr23)
           (by
             first
               | linarith [hal, hbuf, h1]
               | (rcases hob with h0 | hlt
                  · exfalso
                    have hc := (by assumption :
                        (s.smc_ob_sl && decide (0 < g)) = true)
                    rw [Bool.and_eq_true] at hc
                    have hx := of_decide_eq_true hc.2
                    rw [h0] at hx
                    exact absurd hx (lt_irrefl 0)
                  · linarith [hbuf])
               | (exfalso
                  have hc := (by assumption :
                      (s.smc_ob_sl && decide ((0:ℚ) < 0)) = true)
                  rw [Bool.and_eq_true] at hc
                  exact absurd (of_decide_eq_true hc.2) (lt_irrefl 0)))
           (by ring) rfl (by assumption) _ _)

set_option maxHeartbeats 4000000 in
theorem smcSellSection_ok {fr : Frame} {s : StratCfg} {b0 : SBar}
    {close ema200 buffer bodyRatio asianHigh asianLow : ℚ} {sig : Signal}
    (hs : cfgSane s) (hal : asianLow ≤ asianHigh) (hbuf : 0 ≤ buffer)
    (h : smcSellSection fr s b0 close ema200 buffer bodyRatio asianHigh asianLow 0
          = some (some sig)) :
    SignalOk s.min_sl_pips sig := by
  obtain ⟨m, hm⟩ := hs.2.2.2.2
  have hrr23 : 1 ≤ s.rr_ratio * (23/20) := by linarith [hs.1]
  have hob := getNearestObSl_sell_cases fr (fr.bars.length - 1) close 50
  have h00 : (if (0:ℚ) < 0 then (0:ℚ) else close) = close := if_neg (lt_irrefl 0)
  simp only [smcSellSection, h00] at h
  generalize hG : getNearestObSl fr (fr.bars.length - 1) (-1) close 50 = g at h
  rw [hG] at hob
  generalize hasRecentFvg fr (fr.bars.length - 1) (-1) s.smc_fvg_lookback = fv at h
  generalize hasRecentLiqSweep fr (fr.bars.length - 1) (-1) s.smc_liq_lookback = sw at h
  split_ifs at h with h1
  all_goals
    first
      | exact Option.noConfusion (Option.some.inj h)
      | (obtain rfl := Option.some.inj (Option.some.inj h)
         exact mk_sell_ok hm hs.2.1 (by first | exact hs.1 | exact hrr23)
           (by
             first
               | linarith [hal, hbuf, h1]
               | (rcases hob with h0 | hlt
                  · exfalso
                    have hc := (by assumption :
                        (s.smc_ob_sl && decide (0 < g)) = true)
                    rw [Bool.and_eq_true] at hc
                    have hx := of_decide_eq_true hc.2
                    rw [h0] at hx
                    exact absurd hx (lt_irrefl 0)
                  · linarith [hbuf])
               | (exfalso
                  have hc := (by assumption :
                      (s.smc_ob_sl && decide ((0:ℚ) < 0)) = true)
                  rw [Bool.and_eq_true] at hc
                  exact absurd (of_decide_eq_true hc.2) (lt_irrefl 0)))
           (by ring) rfl (by assumption) _ _)

theorem buyPullbackAttempt_ok {fr : Frame} {s : StratCfg} {b0 : SBar}
    {close ema21 atr rsi bodyRatio : ℚ} {sig : Signal}
    (hs : cfgSane s) (hatr : 0 ≤ atr)
    (hsw : minLow (fr.bars.drop (fr.bars.length - 5)) ≤ close)
    (h : buyPullbackAttempt fr s b0 close ema21 atr rsi bodyRatio 0 = some sig) :
    SignalOk s.min_sl_pips sig := by
  obtain ⟨m, hm⟩ := hs.2.2.2.2
  have h00 : (if (0:ℚ) < 0 then (0:ℚ) else close) = close := if_neg (lt_irrefl 0)
  rcases hb1 : getFromEnd fr.bars 2 with _ | b1
  · unfold buyPullbackAttempt at h
    rw [hb1] at h
    exact Option.noConfusion h
  · simp only [buyPullbackAttempt, hb1, h00] at h
    split_ifs at h with h1 h2 h3
    obtain rfl := Option.some.inj h
    exact mk_buy_ok hm hs.2.1 hs.1 (by linarith [hsw, hatr]) (by ring) rfl
      ⟨h3.2.2.1, h3.2.2.2⟩ _ _

theorem sellPullbackAttempt_ok {fr : Frame} {s : StratCfg} {b0 : SBar}
    {close ema21 atr rsi bodyRatio : ℚ} {sig : Signal}
    (hs : cfgSane s) (hatr : 0 ≤ atr)
    (hsw : close ≤ maxHigh (fr.bars.drop (fr.bars.length - 5)))
    (h : sellPullbackAttempt fr s b0 close ema21 atr rsi bodyRatio 0 = some sig) :
    SignalOk s.min_sl_pips sig := by
  obtain ⟨m, hm⟩ := hs.2.2.2.2
  have h00 : (if (0:ℚ) < 0 then (0:ℚ) else close) = close := if_neg (lt_irrefl 0)
  rcases hb1 : getFromEnd fr.bars 2 with _ | b1
  · unfold sellPullbackAttempt at h
    rw [hb1] at h
    exact Option.noConfusion h
  · simp only [sellPullbackAttempt, hb1, h00] at h
    split_ifs at h with h1 h2 h3
    obtain rfl := Option.some.inj h
    exact mk_sell_ok hm hs.2.1 hs.1 (by linarith [hsw, hatr]) (by ring) rfl
      ⟨h3.2.2.1, h3.2.2.2⟩ _ _

set_option maxHeartbeats 1000000 in
theorem momBuySection_ok {fr : Frame} {s : StratCfg} {b0 : SBar}
    {close ema21 atr rsi bodyRatio : ℚ} {uptrend : Bool} {lookback : List SBar}
    {sig : Signal} (hs : cfgSane s) (hatr : 0 ≤ atr)
    (hsw : minLow (fr.bars.drop (fr.bars.length - 5)) ≤ close)
    (h : momBuySection fr s b0 close ema21 atr rsi bodyRatio uptrend lookback 0
          = some (some sig)) :
    SignalOk s.min_sl_pips sig := by
  obtain ⟨m, hm⟩ := hs.2.2.2.2
  have h00 : (if (0:ℚ) < 0 then (0:ℚ) else close) = close := if_neg (lt_irrefl 0)
  simp only [momBuySection, h00] at h
  split_ifs at h with h1 h2 h3 h4 h5
  all_goals
    first
      | exact Option.noConfusion (Option.some.inj h)
      | exact buyPullbackAttempt_ok hs hatr hsw (map_some_eq h)
      | (obtain rfl := Option.some.inj (Option.some.inj h)
         exact mk_buy_ok hm hs.2.1 hs.1 (mul_nonneg hatr (le_of_lt hs.2.2.2.1))
           (by ring) rfl (by assumption) _ _)

set_option maxHeartbeats 1000000 in
theorem momSellSection_ok {fr : Frame} {s : StratCfg} {b0 : SBar}
    {close ema21 atr rsi bodyRatio : ℚ} {downtrend : Bool} {lookback : List SBar}
    {sig : Signal} (hs : cfgSane s) (hatr : 0 ≤ atr)
    (hsw : close ≤ maxHigh (fr.bars.drop (fr.bars.length - 5)))
    (h : momSellSection fr s b0 close ema21 atr rsi bodyRatio downtrend lookback 0
          = some (some sig)) :
    SignalOk s.min_sl_pips sig := by
  obtain ⟨m, hm⟩ := hs.2.2.2.2
  have h00 : (if (0:ℚ) < 0 then (0:ℚ) else close) = close := if_neg (lt_irrefl 0)
  simp only [momSellSection, h00] at h
  split_ifs at h with h1 h2 h3 h4 h5
  all_goals
    first
      | exact Option.noConfusion (Option.some.inj h)
      | exact sellPullbackAttempt_ok hs hatr hsw (map_some_eq h)
      | (obtain rfl := Option.some.inj (Option.some.inj h)
         exact mk_sell_ok hm hs.2.1 hs.1 (mul_nonneg hatr (le_of_lt hs.2.2.2.1))
           (by ring) rfl (by assumption) _ _)

theorem getFromEnd_le_len {l : List SBar} {k : ℕ} {b : SBar}
    (h : getFromEnd l k = some b) : 1 ≤ k ∧ k ≤ l.length := by
  unfold getFromEnd at h
  split_ifs at h with hc
  exact hc

theorem last_mem_drop {l : List SBar} {b : SBar}
    (h : getFromEnd l 1 = some b) (k : ℕ) (hk : k ≤ l.length - 1) :
    b ∈ l.drop k := by
  unfold getFromEnd at h
  split_ifs at h
  have h2 : (l.drop k).get? (l.length - 1 - k) = some b := by
    rw [List.get?_drop]
    rw [show k + (l.length - 1 - k) = l.length - 1 by omega]
    exact h
  exact List.get?_mem h2

set_option maxHeartbeats 4000000 in
theorem momentumBreakout_geom {fr : Frame} {s : StratCfg} {sig : Signal}
    (hwf : ∀ b ∈ fr.bars, wfBar b) (hs : cfgSane s)
    (h : momentumBreakout fr s 0 0 = some sig) :
    SignalOk s.min_sl_pips sig := by
  rcases hb0 : getFromEnd fr.bars 1 with _ | b0
  · unfold momentumBreakout at h
    rw [hb0] at h
    rcases lt_or_ge fr.bars.length (max (s.breakout_bars + 3) 50) with hl | hl
    · rw [if_pos hl] at h
      exact Option.noConfusion h
    · rw [if_neg (not_lt.mpr hl)] at h
      exact Option.noConfusion h
  · have hwf0 := hwf b0 (getFromEnd_mem hb0)
    have hatr : 0 ≤ b0.atr := hwf0.2.2.2.2
    have hmem5 : b0 ∈ fr.bars.drop (fr.bars.length - 5) :=
      last_mem_drop hb0 (fr.bars.length - 5) (by omega)
    have hsw : minLow (fr.bars.drop (fr.bars.length - 5)) ≤ b0.closePrice :=
      le_trans (minLow_le_of_mem hmem5) hwf0.2.2.1
    have hsw2 : b0.closePrice ≤ maxHigh (fr.bars.drop (fr.bars.length - 5)) :=
      le_trans hwf0.2.2.2.1 (maxHigh_le_of_mem hmem5)
    rcases hbp : getFromEnd fr.bars (s.h4_slope_bars + 1) with _ | bPrev
    · simp only [momentumBreakout, hb0, hbp] at h
      split_ifs at h
    · simp only [momentumBreakout, hb0, hbp] at h
      split_ifs at h
      all_goals
        (rcases chain2_some h with hA | hA
         · exact momBuySection_ok hs hatr hsw hA
         · exact momSellSection_ok hs hatr hsw2 hA)

theorem rangeBarsOf_sub {fr : Frame} {s : StratCfg} {b0 : SBar} {inL : Bool}
    {b : SBar} (hb : b ∈ rangeBarsOf fr s b0 inL) : b ∈ fr.bars := by
  simp only [rangeBarsOf] at hb
  split_ifs at hb <;> exact List.mem_of_mem_filter hb

set_option maxHeartbeats 4000000 in
theorem londonBreakout_geom {fr : Frame} {s : StratCfg} {sig : Signal}
    (hwf : ∀ b ∈ fr.bars, wfBar b) (hs : cfgSane s)
    (h : londonBreakout fr s 0 0 = some sig) :
    SignalOk s.min_sl_pips sig := by
  rcases hb0 : getFromEnd fr.bars 1 with _ | b0
  · unfold londonBreakout at h
    rw [hb0] at h
    rcases lt_or_ge fr.bars.length 30 with hl | hl
    · rw [if_pos hl] at h
      exact Option.noConfusion h
    · rw [if_neg (not_lt.mpr hl)] at h
      exact Option.noConfusion h
  · have hwf0 := hwf b0 (getFromEnd_mem hb0)
    have hatr : 0 ≤ b0.atr := hwf0.2.2.2.2
    simp only [londonBreakout, hb0] at h
    split_ifs at h
    all_goals
      first
        | (rcases chain2_some h with hA | hA
           · exact smcBuySection_ok hs
               (minLow_le_maxHigh (fun b hb => le_trans
                 (hwf b (rangeBarsOf_sub hb)).1
                 (hwf b (rangeBarsOf_sub hb)).2.1))
               (mul_nonneg hatr hs.2.2.1) hA
           · exact smcSellSection_ok hs
               (minLow_le_maxHigh (fun b hb => le_trans
                 (hwf b (rangeBarsOf_sub hb)).1
                 (hwf b (rangeBarsOf_sub hb)).2.1))
               (mul_nonneg hatr hs.2.2.1) hA)
        | (rcases orElse_some h with hA | hA
           · exact buyRetestAttempt_ok hs hwf0.2.2.1 (mul_nonneg hatr hs.2.2.1) hA
           · rcases orElse_some hA with hB | hB
             · exact sellRetestAttempt_ok hs hwf0.2.2.2.1
                 (mul_nonneg hatr hs.2.2.1) hB
             · rcases orElse_some hB with hC | hC
               · exact rawBuyAttempt_ok hs
                   (minLow_le_maxHigh (fun b hb => le_trans
                     (hwf b (rangeBarsOf_sub hb)).1
                     (hwf b (rangeBarsOf_sub hb)).2.1))
                   (mul_nonneg hatr hs.2.2.1) hC
               · exact rawSellAttempt_ok hs
                   (minLow_le_maxHigh (fun b hb => le_trans
                     (hwf b (rangeBarsOf_sub hb)).1
                     (hwf b (rangeBarsOf_sub hb)).2.1))
                   (mul_nonneg hatr hs.2.2.1) hC)

/-- C8 (amended): in backtest mode — `get_signal` called with no live quotes
(ask = bid = 0), so every entry is the bar close — each Signal either strategy
returns on a well-formed bar window under a sane configuration has its entry
strictly between stop and target in the trade's direction and its reported
stop distance inside the `[min_sl_pips, 80]` pip band; the counterexample
shows live quotes can break this. -/
theorem signal_geometry (fr : Frame) (s : StratCfg) (sig : Signal)
    (hwf : ∀ b ∈ fr.bars, wfBar b) (hs : cfgSane s)
    (h : getSignal fr s 0 0 = some sig) :
    SignalOk s.min_sl_pips sig := by
  unfold getSignal at h
  split_ifs at h
  · exact londonBreakout_geom hwf hs h
  · exact momentumBreakout_geom hwf hs h

section ConcreteEvalF

set_option allowUnsafeReducibility true

set_option maxRecDepth 100000

attribute [local semireducible] Rat.mul Rat.add Rat.sub Rat.inv Rat.div

/-- C8 (counterexample): the same 30-bar breakout window that yields a clean
backtest signal produces, when the caller supplies a stale live ask 1.0990
(below the computed stop level 1.1010), a BUY Signal whose stop lies above its
entry — `price_to_pips` takes an absolute value, so the inverted stop distance
still passes the pip band and the signal is emitted. -/
theorem live_quote_breaks_geometry :
    getSignal frameC8 cfgStratB (1099/1000) 0 = some sigC8
    ∧ ¬(sigC8.sl < sigC8.entry) :=
  ⟨by decide, by decide⟩

/-- C8 witness: `signal_geometry` on the concrete breakout window `frameC8`
in backtest mode — the returned signal has entry 1.1050 between stop 1.1010
and target 1.1130, stop distance 40 pips inside [6, 80]. -/
theorem signal_geometry_witness :
    (∀ b ∈ frameC8.bars, wfBar b) ∧ cfgSane cfgStratB
    ∧ getSignal frameC8 cfgStratB 0 0 = some sigC8b
    ∧ SignalOk cfgStratB.min_sl_pips sigC8b :=
  ⟨by decide,
   ⟨by decide, by decide, by decide, by decide, 6, by decide⟩,
   by decide,
   signal_geometry frameC8 cfgStratB sigC8b (by decide)
     ⟨by decide, by decide, by decide, by decide, 6, by decide⟩ (by decide)⟩

end ConcreteEvalF

theorem foldClosesAux_spec (fuel : ℕ) (hist : List TradeRow) (tt : ℕ)
    (bal : ℚ) (c : CState) (h1 : tt ≤ hist.length) (h2 : hist.length ≤ tt + fuel) :
    foldClosesAux fuel hist tt bal c
      = ((hist.drop tt).foldl (fun c row => onTradeClosed row.pnl bal c) c,
         hist.length) := by
  induction fuel generalizing tt c with
  | zero =>
      have htt : tt = hist.length := le_antisymm h1 (by omega)
      subst htt
      simp [foldClosesAux, List.drop_length]
  | succ fuel ih =>
      rcases Nat.lt_or_ge tt hist.length with hlt | hge
      · have hg : hist.get? tt = some (hist.get ⟨tt, hlt⟩) := List.get?_eq_get hlt
        simp only [foldClosesAux, hg]
        rw [ih _ _ hlt (by omega), List.drop_eq_getElem_cons hlt]
        rfl
      · have hg : hist.get? tt = none := List.get?_eq_none.mpr hge
        have htt : tt = hist.length := le_antisymm h1 hge
        subst htt
        simp [foldClosesAux, hg, List.drop_length]

theorem processNewCloses_spec (hist : List TradeRow) (tt : ℕ) (bal : ℚ)
    (c : CState) (h1 : tt ≤ hist.length) :
    processNewCloses hist tt bal c
      = ((hist.drop tt).foldl (fun c row => onTradeClosed row.pnl bal c) c,
         hist.length) :=
  foldClosesAux_spec hist.length hist tt bal c h1 (by omega)

/-- C4: in each backtest bar iteration every close the bar produced is folded
into compliance via `on_trade_closed` strictly before that bar's `rule_check`
gate: the compliance state handed to the gate equals the fold of exactly the
new ledger rows over `on_trade_closed`, the gate output is `rule_check` of
that folded state, the row counter stays synchronised, and in realtime
`manage_open_positions` closes nothing (it only edits stops), so `run_cycle`'s
closes likewise all pass through `on_trade_closed` (in `check_sl_tp`) before
its gate. -/
theorem exits_folded_before_gate (cc : CCfg) (tm : TMCfg) (bar : BarOHLC)
    (barDay now wallDay : ℤ) (st : BTState) (atr : ℚ) (rgw : Gateway)
    (h : st.trades_total = st.gw.trade_history.length) :
    (processBarPrefix cc tm bar barDay now wallDay st).compAtGate
      = (processBarPrefix cc tm bar barDay now wallDay st).newRows.foldl
          (fun c row => onTradeClosed row.pnl
            (processBarPrefix cc tm bar barDay now wallDay st).stAfter.gw.balance c)
          (advanceTime barDay st.gw.balance st.comp)
    ∧ (processBarPrefix cc tm bar barDay now wallDay st).gate
      = (ruleCheck cc wallDay
          (getAccountInfo (processBarPrefix cc tm bar barDay now wallDay st).stAfter.gw).balance
          (getAccountInfo (processBarPrefix cc tm bar barDay now wallDay st).stAfter.gw).equity
          (processBarPrefix cc tm bar barDay now wallDay st).stAfter.gw.spread_pips
          (processBarPrefix cc tm bar barDay now wallDay st).compAtGate).2
    ∧ (processBarPrefix cc tm bar barDay now wallDay st).stAfter.trades_total
      = (processBarPrefix cc tm bar barDay now wallDay st).stAfter.gw.trade_history.length
    ∧ (manageOpenPositions tm atr rgw).trade_history = rgw.trade_history
    ∧ (manageOpenPositions tm atr rgw).positions.length = rgw.positions.length := by
  have hlen : st.trades_total
      ≤ (checkSlTp tm bar now (updatePrice st.gw bar.closePrice 0)).trade_history.length := by
    obtain ⟨rows, hrows⟩ : ∃ rows,
        (checkSlTp tm bar now (updatePrice st.gw bar.closePrice 0)).trade_history
          = st.gw.trade_history ++ rows := ⟨_, rfl⟩
    rw [hrows, List.length_append, h]
    omega
  refine ⟨?_, rfl, ?_, ?_, ?_⟩
  · simp only [processBarPrefix, processNewCloses_spec _ _ _ _ hlen]
    rw [h]
  · simp only [processBarPrefix, processNewCloses_spec _ _ _ _ hlen]
  · rfl
  · simp [manageOpenPositions]

/-- C4 witness: `exits_folded_before_gate` on the one-position backtest state
`stC4` over the stop-out bar `barC4` — the gate of that bar sees the folded
close. -/
theorem exits_folded_before_gate_witness :
    stC4.trades_total = stC4.gw.trade_history.length
    ∧ ((processBarPrefix exCfg tmOff barC4 101 0 101 stC4).compAtGate
        = (processBarPrefix exCfg tmOff barC4 101 0 101 stC4).newRows.foldl
            (fun c row => onTradeClosed row.pnl
              (processBarPrefix exCfg tmOff barC4 101 0 101 stC4).stAfter.gw.balance c)
            (advanceTime 101 stC4.gw.balance stC4.comp)
      ∧ (manageOpenPositions tmOff 0 gwC4).trade_history = gwC4.trade_history) :=
  ⟨rfl,
   (exits_folded_before_gate exCfg tmOff barC4 101 0 101 stC4 0 gwC4 rfl).1,
   (exits_folded_before_gate exCfg tmOff barC4 101 0 101 stC4 0 gwC4 rfl).2.2.2.1⟩

end Forex
